import Mathlib

/-!
# Cloud storage drivers: listing, token refresh and download

A shallow embedding of

* `cloud-storage/google/list_files.c` (paged folder listing),
* `cloud-storage/onedrive/authenticate.c` (OAuth refresh-token flow),
* `cloud-storage/onedrive/download_file.c`,

over the data model of `cloud-storage/cloud_storage.h`.

Conventions of the embedding.

* A `cloud_storage_item_t *` is a value of the inductive type `cloud_storage_item_t`:
  either `NULL` or a node carrying its fields, among them the `next` sibling pointer.
  A pointer *into* a sibling chain (`last_child`, `current_file`) is the number of
  `next` hops from the head of the chain, `none` standing for a null pointer.
* `char *` strings are `String`, a null string is `none`.
* `int`, `int64_t` and `time_t` values are `Int`.  The one sum the code forms,
  `time(NULL) + expires_in`, is taken in 64-bit two's complement (`wrap_int64`): the
  value that is stored when the mathematical sum does not fit a 64-bit `time_t`.
* Loops that the C code does not bound take a `fuel : Nat`; `none` means that the
  fuel ran out before the loop was left.
* Functions of the code base that are declared but not defined in the sources at
  hand (the transport, the JSON readers, the per-item parser, the URL encoder) are
  parameters.
-/

namespace CloudStorage

/-! ## `cloud_storage.h` -/

inductive cloud_storage_hash_type_t where
  | SHA1
  | SHA256
  | MD5
deriving DecidableEq, Repr

structure cloud_storage_file_t where
  hash_type : cloud_storage_hash_type_t
  hash_value : Option String
  download_url : Option String
deriving DecidableEq, Repr

inductive cloud_storage_item_type_t where
  | CLOUD_STORAGE_FILE
  | CLOUD_STORAGE_FOLDER
deriving DecidableEq, Repr

/-- A `cloud_storage_item_t *`: `NULL`, or a node with the fields of
`struct cloud_storage_item_t`.  The two members of the union `type_data` are kept side
by side (`file`, and `children` for `type_data.folder.children`); the code reads the one
that `item_type` selects. -/
inductive cloud_storage_item_t where
  | NULL : cloud_storage_item_t
  | item (id name : String) (last_sync_time : Int)
      (item_type : cloud_storage_item_type_t)
      (file : cloud_storage_file_t)
      (children : cloud_storage_item_t)
      (next : cloud_storage_item_t) : cloud_storage_item_t
deriving DecidableEq, Repr

namespace cloud_storage_item_t

/-- The node itself, cut off from its siblings (`next` cleared). -/
def unlinked : cloud_storage_item_t → cloud_storage_item_t
  | NULL => NULL
  | item i n t ty f c _ => item i n t ty f c NULL

/-- The sibling sequence that starts at a pointer: the nodes reached by following `next`,
each one cut off from its siblings. -/
def siblings : cloud_storage_item_t → List cloud_storage_item_t
  | NULL => []
  | item i n t ty f c nx => item i n t ty f c NULL :: siblings nx

/-- The tail scan
`for (p = head; p != NULL && p->next != NULL; p = p->next);`
The result is the position of the node `p` stops at, `none` when `head` is `NULL`. -/
def scan_last : cloud_storage_item_t → Option Nat
  | NULL => none
  | item _ _ _ _ _ _ nx => if nx = NULL then some 0 else (scan_last nx).map (· + 1)

/-- The assignment `p->next = q` where `p` is the node `k` hops down the chain `head`.
Writing through a position beyond the chain changes nothing in the chain. -/
def set_next_at : cloud_storage_item_t → Nat → cloud_storage_item_t → cloud_storage_item_t
  | NULL, _, _ => NULL
  | item i n t ty f c _, 0, q => item i n t ty f c q
  | item i n t ty f c nx, k + 1, q => item i n t ty f c (set_next_at nx k q)

/-- Reads `folder->type_data.folder.children`. -/
def folder_children : cloud_storage_item_t → cloud_storage_item_t
  | NULL => NULL
  | item _ _ _ _ _ c _ => c

/-- Assigns `folder->type_data.folder.children = c`. -/
def set_folder_children : cloud_storage_item_t → cloud_storage_item_t → cloud_storage_item_t
  | NULL, _ => NULL
  | item i n t ty f _ nx, c => item i n t ty f c nx

/-- Reads `p->id`, for a non-null `p`. -/
def get_id : cloud_storage_item_t → String
  | NULL => ""
  | item i _ _ _ _ _ _ => i

/-- Reads `p->item_type`, for a non-null `p`. -/
def get_item_type : cloud_storage_item_t → Option cloud_storage_item_type_t
  | NULL => none
  | item _ _ _ ty _ _ _ => some ty

end cloud_storage_item_t

open cloud_storage_item_t

/-! ## `net/net_http.h` and `rest/rest.h`: requests and responses -/

/-- The request record that the `net_http_request_set_*` calls fill in. -/
structure http_request_t where
  url : String
  method : String
  url_params : List (String × String)
  headers : List (String × String)
  body : Option String
  response_file : Option String
  log_request_body : Bool
  log_response_body : Bool
deriving DecidableEq, Repr

/-- Models `net_http_request_new()`: an empty request. -/
def net_http_request_new : http_request_t :=
  { url := "", method := "", url_params := [], headers := [], body := none,
    response_file := none, log_request_body := false, log_response_body := false }

def net_http_request_set_url (request : http_request_t) (url : String) : http_request_t :=
  { request with url := url }

def net_http_request_set_method (request : http_request_t) (method : String) : http_request_t :=
  { request with method := method }

/-- Models `net_http_request_set_url_param(request, name, value, replace)`: with `replace` the
earlier values of `name` are dropped. -/
def net_http_request_set_url_param (request : http_request_t) (name value : String)
    (replace : Bool) : http_request_t :=
  { request with
    url_params :=
      (if replace then request.url_params.filter (fun p => p.1 ≠ name)
        else request.url_params) ++ [(name, value)] }

/-- Models `net_http_request_set_header(request, name, value, replace)`. -/
def net_http_request_set_header (request : http_request_t) (name value : String)
    (replace : Bool) : http_request_t :=
  { request with
    headers :=
      (if replace then request.headers.filter (fun p => p.1 ≠ name)
        else request.headers) ++ [(name, value)] }

def net_http_request_set_body (request : http_request_t) (body : String) : http_request_t :=
  { request with body := some body }

def net_http_request_set_response_file (request : http_request_t) (filename : String) :
    http_request_t :=
  { request with response_file := some filename }

def net_http_request_set_log_request_body (request : http_request_t) (b : Bool) :
    http_request_t :=
  { request with log_request_body := b }

def net_http_request_set_log_response_body (request : http_request_t) (b : Bool) :
    http_request_t :=
  { request with log_response_body := b }

/-- What the code reads of a `struct http_response_t`: the status and the body. -/
structure http_response_t where
  status : Int
  data : String
deriving DecidableEq, Repr

def net_http_response_get_status (response : http_response_t) : Int :=
  response.status

/-- Models `net_http_response_get_data(response, &len, accept_error)`: the body, or `NULL` when
"the status is not 20x and accept_error is false" (comment in `net_http.h`). -/
def net_http_response_get_data (response : http_response_t) (accept_error : Bool) :
    Option String :=
  if (200 ≤ response.status ∧ response.status < 210) ∨ accept_error = true then
    some response.data
  else none

/-- A `rest_request_t` as made by `rest_request_new(http_request)`. -/
structure rest_request_t where
  http_request : http_request_t
deriving DecidableEq, Repr

def rest_request_new (http_request : http_request_t) : rest_request_t :=
  { http_request := http_request }

/-- Models `cloud_storage_join_strings(&len, s1, s2, ..., NULL)` of `driver_utils.h`. -/
def cloud_storage_join_strings (parts : List String) : String :=
  String.join parts

/-! ## `formats/rjson.h`: the token reader -/

inductive rjson_type where
  | RJSON_DONE
  | RJSON_OBJECT
  | RJSON_ARRAY
  | RJSON_OBJECT_END
  | RJSON_ARRAY_END
  | RJSON_STRING
  | RJSON_NUMBER
  | RJSON_TRUE
  | RJSON_FALSE
  | RJSON_NULL
  | RJSON_ERROR
deriving DecidableEq, Repr

/-- One step of the reader as the caller sees it: the type `rjson_next` returns, and what
`rjson_get_string` and `rjson_get_context_count` answer afterwards. -/
structure rjson_token where
  type : rjson_type
  string : String
  context_count : Nat
deriving DecidableEq, Repr

/-- The reader state.  `pending` are the tokens still to be delivered; once they are used
up `rjson_next` answers `final` (end of input or error) on every further call. -/
structure rjson_t where
  pending : List rjson_token
  current : rjson_token
  final : rjson_type
deriving DecidableEq, Repr

def rjson_next (json : rjson_t) : rjson_type × rjson_t :=
  match json.pending with
  | tok :: rest => (tok.type, { json with pending := rest, current := tok })
  | [] => (json.final, { json with current := { json.current with type := json.final } })

def rjson_get_string (json : rjson_t) : String :=
  json.current.string

def rjson_get_context_count (json : rjson_t) : Nat :=
  json.current.context_count

/-! ## `cloud-storage/google/list_files.c` -/

namespace Google

/-- The functions `list_files.c` calls that are defined outside the sources at hand. -/
structure externals where
  /-- The transport `google_rest_execute_request`: a response, or `none` for `NULL`. -/
  google_rest_execute_request : rest_request_t → Option http_response_t
  /-- The reader `rjson_open_buffer(data, data_len)` opens on a response body. -/
  rjson_open_buffer : Option String → rjson_t
  /-- The per-item parser `cloud_storage_google_parse_file_from_json(json)`, called right
  after the reader delivered the `RJSON_OBJECT` of an entry: the new item (or `NULL`) and
  the reader as the parser leaves it. -/
  cloud_storage_google_parse_file_from_json : rjson_t → cloud_storage_item_t × rjson_t

def LIST_FILES_URL : String := "https://www.googleapis.com/drive/v3/files"

def _create_http_request (folder : cloud_storage_item_t) (next_page_token : Option String) :
    http_request_t :=
  let request := net_http_request_new
  let request := net_http_request_set_url request LIST_FILES_URL
  let request := net_http_request_set_method request "GET"
  let q := cloud_storage_join_strings ["\"", folder.get_id, "\" in parents"]
  let request := net_http_request_set_url_param request "q" q true
  let request := net_http_request_set_url_param request "spaces" "appDataFolder" true
  let request := net_http_request_set_url_param request "fields"
    "nextPageToken,files(id,name,mimeType,md5Checksum)" true
  match next_page_token with
  | some tok => net_http_request_set_url_param request "nextPageToken" tok true
  | none => request

/-- The local variables of `_process_response` that live across reader steps.
`key_name` is `none` while the C variable is still unassigned, and a comparison with
it then fails; `key_name` and `received_next_page_token` hold the string the reader
reported when they were assigned.  The position `current_file` is one in the chain that
starts at `first_file`. -/
structure process_state where
  json : rjson_t
  in_object : Bool
  key_name : Option String
  received_next_page_token : Option String
  first_file : cloud_storage_item_t
  current_file : Option Nat
deriving DecidableEq, Repr

/-- The two labels the main loop of `_process_response` jumps to. -/
inductive process_exit where
  | success
  | cleanup
deriving DecidableEq, Repr

/-- The body of `case RJSON_OBJECT:` inside the `files` loop, after the parser returned
`new_file`: link it behind `current_file` and move `current_file` onto it. -/
def link_new_file (s : process_state) (new_file : cloud_storage_item_t) : process_state :=
  if new_file ≠ NULL then
    match s.current_file with
    | none => { s with first_file := new_file, current_file := some 0 }
    | some k =>
      { s with first_file := s.first_file.set_next_at k new_file, current_file := some (k + 1) }
  else s

/-- The inner loop `while (!done) { switch (rjson_next(json)) ... }` over the `files` array.
One unit of fuel per reader step. -/
def files_loop (ext : externals) : Nat → process_state → Option process_state
  | 0, _ => none
  | fuel + 1, s =>
    match rjson_next s.json with
    | (rjson_type.RJSON_OBJECT, json) =>
      let r := ext.cloud_storage_google_parse_file_from_json json
      files_loop ext fuel (link_new_file { s with json := r.2 } r.1)
    | (rjson_type.RJSON_ARRAY_END, json) => some { s with json := json }
    | (_, json) => files_loop ext fuel { s with json := json }

/-- The main loop `for (;;) { switch (rjson_next(json)) ... }` of `_process_response`,
up to the jump to `success` or `cleanup`.  One unit of fuel per reader step. -/
def response_loop (ext : externals) : Nat → process_state → Option (process_exit × process_state)
  | 0, _ => none
  | fuel + 1, s =>
    match rjson_next s.json with
    | (rjson_type.RJSON_ERROR, json) => some (process_exit.cleanup, { s with json := json })
    | (rjson_type.RJSON_OBJECT, json) =>
      if s.in_object then some (process_exit.cleanup, { s with json := json })
      else response_loop ext fuel { s with json := json, in_object := true }
    | (rjson_type.RJSON_OBJECT_END, json) => some (process_exit.success, { s with json := json })
    | (rjson_type.RJSON_STRING, json) =>
      if !s.in_object then some (process_exit.cleanup, { s with json := json })
      else if rjson_get_context_count json % 2 = 1 then
        response_loop ext fuel { s with json := json, key_name := some (rjson_get_string json) }
      else if s.key_name = some "nextPageToken" then
        response_loop ext fuel
          { s with json := json, received_next_page_token := some (rjson_get_string json) }
      else response_loop ext fuel { s with json := json }
    | (rjson_type.RJSON_ARRAY, json) =>
      if s.in_object ∧ s.key_name = some "files" then
        match files_loop ext fuel { s with json := json } with
        | none => none
        | some s1 => response_loop ext fuel s1
      else response_loop ext fuel { s with json := json }
    | (_, json) => response_loop ext fuel { s with json := json }

/-- The function `_process_response(http_response, &next_page_token)`: the returned
`first_file`, and the value left in `*next_page_token` (given its value `next_page_token`
on entry).  `none`: the loops were not left within `fuel` reader steps. -/
def _process_response (ext : externals) (fuel : Nat) (http_response : http_response_t)
    (next_page_token : Option String) : Option (cloud_storage_item_t × Option String) :=
  let data := net_http_response_get_data http_response false
  let json := ext.rjson_open_buffer data
  match response_loop ext fuel
      { json := json, in_object := false, key_name := none,
        received_next_page_token := none, first_file := NULL, current_file := none } with
  | none => none
  | some (process_exit.success, s) =>
    (match s.received_next_page_token with
     | some tok => some (s.first_file, some tok)
     | none => some (s.first_file, next_page_token))
  | some (process_exit.cleanup, s) => some (s.first_file, next_page_token)

/-- The function `_get_list_files_next_page(folder, next_page_token, new_value)`: the
returned `items`, and the value left in `*new_value` (given its value `new_value` on
entry).  The token that `_process_response` finds is written through
`&next_page_token`, the address of the by-value parameter, and dies with it. -/
def _get_list_files_next_page (ext : externals) (fuel : Nat) (folder : cloud_storage_item_t)
    (next_page_token : Option String) (new_value : Option String) :
    Option (cloud_storage_item_t × Option String) :=
  let http_request := _create_http_request folder next_page_token
  let rest_request := rest_request_new http_request
  match ext.google_rest_execute_request rest_request with
  | none => some (NULL, none)
  | some http_response =>
    if net_http_response_get_status http_response = 200 then
      match _process_response ext fuel http_response next_page_token with
      | none => none
      | some (items, _next_page_token) => some (items, new_value)
    else some (NULL, new_value)

/-- The locals of `cloud_storage_google_list_files` across iterations of its
`do ... while (next_value)` loop, together with the folder. -/
structure list_files_state where
  folder : cloud_storage_item_t
  last_child : Option Nat
  next_page_token : Option String
  next_value : Option String
deriving DecidableEq, Repr

/-- The statement `if (new_items) { ... }` of the loop body: hang `new_items` behind
`last_child` (or make it the children when there is no last child) and move
`last_child` to the last node of `new_items`. -/
def link_new_items (folder : cloud_storage_item_t) (last_child : Option Nat)
    (new_items : cloud_storage_item_t) : cloud_storage_item_t × Option Nat :=
  if new_items ≠ NULL then
    match last_child with
    | none => (folder.set_folder_children new_items, new_items.scan_last)
    | some k =>
      (folder.set_folder_children (folder.folder_children.set_next_at k new_items),
        new_items.scan_last.map (fun j => k + 1 + j))
  else (folder, last_child)

/-- The loop `do { ... } while (next_value);`.  `iterations` bounds the number of passes,
`fuel` the reader steps within one page. -/
def list_files_loop (ext : externals) (fuel : Nat) :
    Nat → list_files_state → Option list_files_state
  | 0, _ => none
  | iterations + 1, s =>
    let next_page_token := s.next_value
    let next_value : Option String := none
    match _get_list_files_next_page ext fuel s.folder next_page_token next_value with
    | none => none
    | some (new_items, next_value) =>
      let linked := link_new_items s.folder s.last_child new_items
      let s1 : list_files_state :=
        { folder := linked.1, last_child := linked.2,
          next_page_token := next_page_token, next_value := next_value }
      if next_value.isSome then list_files_loop ext fuel iterations s1 else some s1

/-- The function `cloud_storage_google_list_files(folder)`: the folder after the call.
`none`: the work was not finished within `iterations` pages of `fuel` reader steps. -/
def cloud_storage_google_list_files (ext : externals) (fuel iterations : Nat)
    (folder : cloud_storage_item_t) : Option cloud_storage_item_t :=
  if folder = NULL ∨ folder.get_item_type ≠ some cloud_storage_item_type_t.CLOUD_STORAGE_FOLDER then
    some folder
  else
    let last_child := folder.folder_children.scan_last
    match list_files_loop ext fuel iterations
        { folder := folder, last_child := last_child, next_page_token := none,
          next_value := none } with
    | none => none
    | some s => some s.folder

/-! ### A per-item parser and a sample remote -/

/-- The members of a `files` entry that the listing asks for
(`fields=nextPageToken,files(id,name,mimeType,md5Checksum)`). -/
structure file_fields where
  id : Option String
  name : Option String
  mimeType : Option String
  md5Checksum : Option String
deriving DecidableEq, Repr

/-- Stores the value of the member `key` of an entry. -/
def file_fields.set (f : file_fields) (key : Option String) (value : String) : file_fields :=
  if key = some "id" then { f with id := some value }
  else if key = some "name" then { f with name := some value }
  else if key = some "mimeType" then { f with mimeType := some value }
  else if key = some "md5Checksum" then { f with md5Checksum := some value }
  else f

/-- Modelled from the spec: the member scan of the per-item parser
`cloud_storage_google_parse_file_from_json`, whose definition is not among the sources.
It reads the tokens of one entry up to the `RJSON_OBJECT_END` that closes it and keeps the
string members; the result is the fields, the last token read and the tokens left. -/
def read_file_fields : List rjson_token → rjson_token → Option String → file_fields →
    file_fields × rjson_token × List rjson_token
  | [], cur, _, f => (f, cur, [])
  | tok :: rest, _, key, f =>
    match tok.type with
    | rjson_type.RJSON_OBJECT_END => (f, tok, rest)
    | rjson_type.RJSON_STRING =>
      if tok.context_count % 2 = 1 then read_file_fields rest tok (some tok.string) f
      else read_file_fields rest tok key (f.set key tok.string)
    | _ => read_file_fields rest tok key f

def FOLDER_MIME_TYPE : String := "application/vnd.google-apps.folder"

/-- Modelled from the spec: the item the per-item parser makes of the members it read: "an
entry is accepted only if it carries a recognizable type discriminator; files lacking a
content hash are recorded with a zero-value hash rather than rejected". -/
def item_of_file_fields (f : file_fields) : cloud_storage_item_t :=
  match f.mimeType with
  | none => NULL
  | some mime =>
    if mime = FOLDER_MIME_TYPE then
      item (f.id.getD "") (f.name.getD "") 0 cloud_storage_item_type_t.CLOUD_STORAGE_FOLDER
        { hash_type := cloud_storage_hash_type_t.SHA1, hash_value := none, download_url := none }
        NULL NULL
    else
      item (f.id.getD "") (f.name.getD "") 0 cloud_storage_item_type_t.CLOUD_STORAGE_FILE
        (match f.md5Checksum with
         | some h =>
           { hash_type := cloud_storage_hash_type_t.MD5, hash_value := some h,
             download_url := none }
         | none =>
           { hash_type := cloud_storage_hash_type_t.SHA1, hash_value := none,
             download_url := none })
        NULL NULL

/-- Modelled from the spec: the per-item parser `cloud_storage_google_parse_file_from_json`,
whose definition is not among the sources, from the two parts above. -/
def parse_file_from_json (json : rjson_t) : cloud_storage_item_t × rjson_t :=
  let r := read_file_fields json.pending json.current none
    { id := none, name := none, mimeType := none, md5Checksum := none }
  (item_of_file_fields r.1, { json with pending := r.2.2, current := r.2.1 })

/-- The reader tokens of one `files` entry with the members `id`, `name`, `mimeType`. -/
def entry_tokens (id name mime : String) : List rjson_token :=
  [⟨rjson_type.RJSON_OBJECT, "", 0⟩,
   ⟨rjson_type.RJSON_STRING, "id", 1⟩, ⟨rjson_type.RJSON_STRING, id, 2⟩,
   ⟨rjson_type.RJSON_STRING, "name", 3⟩, ⟨rjson_type.RJSON_STRING, name, 4⟩,
   ⟨rjson_type.RJSON_STRING, "mimeType", 5⟩, ⟨rjson_type.RJSON_STRING, mime, 6⟩,
   ⟨rjson_type.RJSON_OBJECT_END, "", 6⟩]

/-- The reader tokens of a listing page: an object with the member `files` (the given
entries) and, when there is a continuation token, the member `nextPageToken`. -/
def page_tokens (entries : List (List rjson_token)) (next : Option String) : List rjson_token :=
  [⟨rjson_type.RJSON_OBJECT, "", 0⟩,
   ⟨rjson_type.RJSON_STRING, "files", 1⟩, ⟨rjson_type.RJSON_ARRAY, "", 0⟩]
  ++ entries.flatten ++
  [⟨rjson_type.RJSON_ARRAY_END, "", 2⟩]
  ++ (match next with
      | some tok =>
        [⟨rjson_type.RJSON_STRING, "nextPageToken", 3⟩, ⟨rjson_type.RJSON_STRING, tok, 4⟩]
      | none => [])
  ++ [⟨rjson_type.RJSON_OBJECT_END, "", 4⟩]

/-- A reader that has the given tokens to deliver and then reports the end of input. -/
def reader_of (tokens : List rjson_token) : rjson_t :=
  { pending := tokens, current := ⟨rjson_type.RJSON_DONE, "", 0⟩,
    final := rjson_type.RJSON_DONE }

/-- A sample remote of three listing pages: `page1` (items `a`, `b`, token `T1`), `page2`
(items `c`, `d`, token `T2`) and `page3` (no items, no token).  The transport answers a
request without `nextPageToken` with page 1, one with `T1` with page 2, one with `T2` with
page 3, and fails on any other request. -/
def three_pages : externals where
  google_rest_execute_request := fun request =>
    match request.http_request.url_params.lookup "nextPageToken" with
    | none => some { status := 200, data := "page1" }
    | some tok =>
      if tok = "T1" then some { status := 200, data := "page2" }
      else if tok = "T2" then some { status := 200, data := "page3" }
      else none
  rjson_open_buffer := fun data =>
    if data = some "page1" then
      reader_of (page_tokens [entry_tokens "a" "a.srm" "text/plain",
        entry_tokens "b" "b.srm" "text/plain"] (some "T1"))
    else if data = some "page2" then
      reader_of (page_tokens [entry_tokens "c" "c.srm" "text/plain",
        entry_tokens "d" "d.srm" "text/plain"] (some "T2"))
    else if data = some "page3" then reader_of (page_tokens [] none)
    else { pending := [], current := ⟨rjson_type.RJSON_ERROR, "", 0⟩,
           final := rjson_type.RJSON_ERROR }
  cloud_storage_google_parse_file_from_json := parse_file_from_json

/-- A sample remote whose listing is one page: with the items `a` and `b` when `empty` is
false, with no items when it is true; no continuation token. -/
def one_page (empty : Bool) : externals where
  google_rest_execute_request := fun _ => some { status := 200, data := "page" }
  rjson_open_buffer := fun _ =>
    reader_of (page_tokens
      (if empty then [] else [entry_tokens "a" "a.srm" "text/plain",
        entry_tokens "b" "b.srm" "text/plain"]) none)
  cloud_storage_google_parse_file_from_json := parse_file_from_json

/-- A file item as the sample parser makes it of `id`, `name` and a plain mime type,
with the given `next`. -/
def sample_file (id name : String) (next : cloud_storage_item_t) : cloud_storage_item_t :=
  item id name 0 cloud_storage_item_type_t.CLOUD_STORAGE_FILE
    { hash_type := cloud_storage_hash_type_t.SHA1, hash_value := none, download_url := none }
    NULL next

/-- A folder item `saves` with the given children. -/
def sample_folder (children : cloud_storage_item_t) : cloud_storage_item_t :=
  item "saves" "save_games" 0 cloud_storage_item_type_t.CLOUD_STORAGE_FOLDER
    { hash_type := cloud_storage_hash_type_t.SHA1, hash_value := none, download_url := none }
    children NULL

/-- A remote whose transport fails on every request (no response). -/
def unreachable_remote : externals where
  google_rest_execute_request := fun _ => none
  rjson_open_buffer := fun _ => reader_of []
  cloud_storage_google_parse_file_from_json := parse_file_from_json

/-- The text of a listing response that breaks off inside the `files` array. -/
def truncated_listing_text : String := "\x7b\"files\":["

/-- A remote that answers every request with status 200 and the truncated text above: the
reader delivers the opening of the object, the key `files` and the opening of the array,
and reports an error on every call after that. -/
def truncated_listing : externals where
  google_rest_execute_request := fun _ => some { status := 200, data := truncated_listing_text }
  rjson_open_buffer := fun _ =>
    { pending :=
        [⟨rjson_type.RJSON_OBJECT, "", 0⟩, ⟨rjson_type.RJSON_STRING, "files", 1⟩,
         ⟨rjson_type.RJSON_ARRAY, "", 0⟩],
      current := ⟨rjson_type.RJSON_DONE, "", 0⟩,
      final := rjson_type.RJSON_ERROR }
  cloud_storage_google_parse_file_from_json := parse_file_from_json

/-! ### Well-formed listing responses, as the reader delivers them -/

/-- The kinds of value the reader reports with a single token other than a string. -/
inductive plain_type where
  | NUMBER
  | TRUE
  | FALSE
  | NULL
deriving DecidableEq, Repr

/-- The token type the reader reports for a plain value. -/
def plain_type.to_rjson_type : plain_type → rjson_type
  | plain_type.NUMBER => rjson_type.RJSON_NUMBER
  | plain_type.TRUE => rjson_type.RJSON_TRUE
  | plain_type.FALSE => rjson_type.RJSON_FALSE
  | plain_type.NULL => rjson_type.RJSON_NULL

/-- A member of the top-level object of a listing response: a member with a string value,
a member with a number or literal value, or the member `files` with its array of entries.
An entry is given by the tokens the reader delivers for it after the `RJSON_OBJECT` that
opens it, through the `RJSON_OBJECT_END` that closes it. -/
inductive listing_member where
  | string (key value : String)
  | plain (key : String) (type : plain_type) (text : String)
  | files (entries : List (List rjson_token))
deriving DecidableEq, Repr

/-- The tokens of the entries of a `files` array, each with its opening `RJSON_OBJECT`. -/
def entries_tokens (entries : List (List rjson_token)) : List rjson_token :=
  (entries.map (fun entry => (⟨rjson_type.RJSON_OBJECT, "", 0⟩ : rjson_token) :: entry)).flatten

/-- Modelled from the spec: the tokens the JSON reader (`formats/rjson.h`, an external
collaborator, "token stream over OBJECT, OBJECT_END, ARRAY, ARRAY_END, STRING, ERROR, ...")
delivers for the members of the top-level object, `count` being the number of keys and
values of the object delivered before.  A key is reported with an odd context count, the
value after it with the next even one; an array opens a context of its own. -/
def members_tokens : Nat → List listing_member → List rjson_token
  | _, [] => []
  | count, listing_member.string key value :: members =>
    ⟨rjson_type.RJSON_STRING, key, count + 1⟩ :: ⟨rjson_type.RJSON_STRING, value, count + 2⟩
      :: members_tokens (count + 2) members
  | count, listing_member.plain key type text :: members =>
    ⟨rjson_type.RJSON_STRING, key, count + 1⟩ :: ⟨type.to_rjson_type, text, count + 2⟩
      :: members_tokens (count + 2) members
  | count, listing_member.files entries :: members =>
    ⟨rjson_type.RJSON_STRING, "files", count + 1⟩ :: ⟨rjson_type.RJSON_ARRAY, "", 0⟩
      :: (entries_tokens entries
        ++ ⟨rjson_type.RJSON_ARRAY_END, "", count + 2⟩ :: members_tokens (count + 2) members)

/-- Modelled from the spec: the tokens the JSON reader delivers for a well-formed listing
response, a top-level object with the given members. -/
def listing_tokens (members : List listing_member) : List rjson_token :=
  ⟨rjson_type.RJSON_OBJECT, "", 0⟩
    :: (members_tokens 0 members ++ [⟨rjson_type.RJSON_OBJECT_END, "", 2 * members.length⟩])

/-- The entries of the `files` members of an object, in order. -/
def listing_entries : List listing_member → List (List rjson_token)
  | [] => []
  | listing_member.files entries :: members => entries ++ listing_entries members
  | listing_member.string _ _ :: members => listing_entries members
  | listing_member.plain _ _ _ :: members => listing_entries members

/-- The string value of the last member named `nextPageToken` that has a string value;
`acc` when there is none. -/
def listing_token : List listing_member → Option String → Option String
  | [], acc => acc
  | listing_member.string key value :: members, acc =>
    listing_token members (if key = "nextPageToken" then some value else acc)
  | listing_member.plain _ _ _ :: members, acc => listing_token members acc
  | listing_member.files _ :: members, acc => listing_token members acc

/-- The per-item parser reads `entry` as the item `item_of entry`: called on a reader that
has the tokens of the entry next, it returns that item and leaves the reader right behind
the entry. -/
def parser_reads (ext : externals) (item_of : List rjson_token → cloud_storage_item_t)
    (entry : List rjson_token) : Prop :=
  ∀ (json : rjson_t) (rest : List rjson_token), json.pending = entry ++ rest →
    (ext.cloud_storage_google_parse_file_from_json json).1 = item_of entry ∧
    (ext.cloud_storage_google_parse_file_from_json json).2.pending = rest

/-- The locals of `_process_response` when its main loop is entered: the reader just
opened on the body of the response, nothing seen and nothing linked yet. -/
def scan_start (ext : externals) (http_response : http_response_t) : process_state :=
  { json := ext.rjson_open_buffer (net_http_response_get_data http_response false),
    in_object := false, key_name := none, received_next_page_token := none,
    first_file := NULL, current_file := none }

/-! ### More sample remotes -/

/-- The tokens of a `files` entry with the members `id`, `name`, `mimeType`, after its
opening `RJSON_OBJECT`. -/
def entry_body (id name mime : String) : List rjson_token :=
  [⟨rjson_type.RJSON_STRING, "id", 1⟩, ⟨rjson_type.RJSON_STRING, id, 2⟩,
   ⟨rjson_type.RJSON_STRING, "name", 3⟩, ⟨rjson_type.RJSON_STRING, name, 4⟩,
   ⟨rjson_type.RJSON_STRING, "mimeType", 5⟩, ⟨rjson_type.RJSON_STRING, mime, 6⟩,
   ⟨rjson_type.RJSON_OBJECT_END, "", 6⟩]

/-- The tokens of a `files` entry that has only the members `id` and `name` (no type
discriminator), after its opening `RJSON_OBJECT`. -/
def entry_body_untyped (id name : String) : List rjson_token :=
  [⟨rjson_type.RJSON_STRING, "id", 1⟩, ⟨rjson_type.RJSON_STRING, id, 2⟩,
   ⟨rjson_type.RJSON_STRING, "name", 3⟩, ⟨rjson_type.RJSON_STRING, name, 4⟩,
   ⟨rjson_type.RJSON_OBJECT_END, "", 4⟩]

/-- The item the sample parser makes of the tokens of an entry. -/
def sample_item_of (entry : List rjson_token) : cloud_storage_item_t :=
  item_of_file_fields
    (read_file_fields entry ⟨rjson_type.RJSON_OBJECT, "", 0⟩ none
      { id := none, name := none, mimeType := none, md5Checksum := none }).1

/-- The members of a sample listing: `kind`, then `files` with the entries `a` (a file),
`x` (without `mimeType`) and `b` (a file), then `nextPageToken` = `T1`. -/
def mixed_members : List listing_member :=
  [listing_member.string "kind" "drive#fileList",
   listing_member.files
     [entry_body "a" "a.srm" "text/plain", entry_body_untyped "x" "x.srm",
      entry_body "b" "b.srm" "text/plain"],
   listing_member.string "nextPageToken" "T1"]

/-- A remote that answers every request with status 200 and the sample listing above. -/
def mixed_listing : externals where
  google_rest_execute_request := fun _ => some { status := 200, data := "mixed" }
  rjson_open_buffer := fun _ => reader_of (listing_tokens mixed_members)
  cloud_storage_google_parse_file_from_json := parse_file_from_json

/-- The text of a well-formed response with an entry `a` in `files` and, after it, a
member `extra` whose value is an object. -/
def nested_object_text : String :=
  "\x7b\"files\":[\x7b\"id\":\"a\",\"name\":\"a.srm\",\"mimeType\":\"text/plain\"\x7d],"
    ++ "\"extra\":\x7b\x7d\x7d"

/-- A remote that answers every request with status 200 and the text above. -/
def nested_object_listing : externals where
  google_rest_execute_request := fun _ => some { status := 200, data := nested_object_text }
  rjson_open_buffer := fun _ =>
    reader_of
      ([⟨rjson_type.RJSON_OBJECT, "", 0⟩, ⟨rjson_type.RJSON_STRING, "files", 1⟩,
        ⟨rjson_type.RJSON_ARRAY, "", 0⟩]
        ++ entry_tokens "a" "a.srm" "text/plain"
        ++ [⟨rjson_type.RJSON_ARRAY_END, "", 2⟩, ⟨rjson_type.RJSON_STRING, "extra", 3⟩,
            ⟨rjson_type.RJSON_OBJECT, "", 0⟩, ⟨rjson_type.RJSON_OBJECT_END, "", 4⟩,
            ⟨rjson_type.RJSON_OBJECT_END, "", 4⟩])
  cloud_storage_google_parse_file_from_json := parse_file_from_json

/-- A remote that answers every request with status 200 and a body that is no JSON at
all: the reader reports an error on its first call and on every later one. -/
def malformed_listing : externals where
  google_rest_execute_request := fun _ => some { status := 200, data := "<html>" }
  rjson_open_buffer := fun _ =>
    { pending := [], current := ⟨rjson_type.RJSON_DONE, "", 0⟩,
      final := rjson_type.RJSON_ERROR }
  cloud_storage_google_parse_file_from_json := parse_file_from_json

/-- The text of a well-formed response without a member `nextPageToken`, with a member
`a` whose value is an array of two strings, the first of them `nextPageToken`. -/
def array_member_text : String :=
  "\x7b\"a\":[\"nextPageToken\",\"xyz\"],\"files\":[]\x7d"

/-- A remote that answers every request with status 200 and the text above. -/
def array_member_listing : externals where
  google_rest_execute_request := fun _ => some { status := 200, data := array_member_text }
  rjson_open_buffer := fun _ =>
    reader_of
      [⟨rjson_type.RJSON_OBJECT, "", 0⟩, ⟨rjson_type.RJSON_STRING, "a", 1⟩,
       ⟨rjson_type.RJSON_ARRAY, "", 0⟩, ⟨rjson_type.RJSON_STRING, "nextPageToken", 1⟩,
       ⟨rjson_type.RJSON_STRING, "xyz", 2⟩, ⟨rjson_type.RJSON_ARRAY_END, "", 2⟩,
       ⟨rjson_type.RJSON_STRING, "files", 3⟩, ⟨rjson_type.RJSON_ARRAY, "", 0⟩,
       ⟨rjson_type.RJSON_ARRAY_END, "", 4⟩, ⟨rjson_type.RJSON_OBJECT_END, "", 4⟩]
  cloud_storage_google_parse_file_from_json := parse_file_from_json

/-- The locals of `_process_response` when the scan of the malformed sample body stops:
the reader has reported its error, nothing is linked. -/
def malformed_scan_end : process_state :=
  { json :=
      { pending := [], current := ⟨rjson_type.RJSON_ERROR, "", 0⟩,
        final := rjson_type.RJSON_ERROR },
    in_object := false, key_name := none, received_next_page_token := none,
    first_file := NULL, current_file := none }

/-- The token of a key reported after `count` keys and values of the object, or no token
when there is no key. -/
def key_tokens (count : Nat) : Option String → List rjson_token
  | some name => [⟨rjson_type.RJSON_STRING, name, count + 1⟩]
  | none => []

/-- Modelled from the spec: the tokens the JSON reader delivers for a response whose
top-level object has the given members and then, after the key `key` if there is one, the
token `stop` (a reported error, or the opening of an object that is the value of `key`),
followed by whatever the reader would deliver after it. -/
def stopped_listing_tokens (members : List listing_member) (key : Option String)
    (stop : rjson_token) (rest : List rjson_token) : List rjson_token :=
  ⟨rjson_type.RJSON_OBJECT, "", 0⟩
    :: (members_tokens 0 members ++ (key_tokens (2 * members.length) key ++ stop :: rest))

end Google

/-! ## `cloud-storage/onedrive/authenticate.c` -/

namespace OneDrive

/-- The field `char *access_token` of the provider data, with the state of the storage
it points to: a null pointer, a pointer to a live string, or a pointer whose storage has
been handed to `free` (the pointer value itself is still in the field). -/
inductive access_token_ptr where
  | NULL
  | str (s : String)
  | freed
deriving DecidableEq, Repr

/-- The call `free(p)` for a non-null `p`, seen from the field that holds `p`: the field
keeps the pointer, the storage is gone.  `none`: `p` had been freed before, the call is
undefined. -/
def free : access_token_ptr → Option access_token_ptr
  | access_token_ptr.NULL => some access_token_ptr.NULL
  | access_token_ptr.str _ => some access_token_ptr.freed
  | access_token_ptr.freed => none

/-- The two fields of `struct cloud_storage_onedrive_provider_data_t` the file uses. -/
structure cloud_storage_onedrive_provider_data_t where
  access_token : access_token_ptr
  access_token_expiration_time : Int
deriving DecidableEq, Repr

/-- The fields of `settings->arrays` read by `refresh_token_request_body`. -/
structure settings_t where
  cloud_storage_onedrive_client_id : String
  cloud_storage_onedrive_refresh_token : String
deriving DecidableEq, Repr

/-- Modelled from the spec: the parse tree of `../json.h`, which is not among the sources.
The file only asks whether a node is an object and looks members up by name. -/
inductive json_node_t where
  | OBJECT_VALUE (map_value : List (String × json_node_t))
  | ARRAY_VALUE (array_value : List json_node_t)
  | STRING_VALUE (string_value : String)
  | INTEGER_VALUE (int_value : Int)
  | OTHER_VALUE

/-- Modelled from the spec: `json_map_get_value_string(map, key, &value, &length)` of
`../json.h`; `some value` when it returns true: the map has a member `key` and it is a
string ("extract `access_token` (string)"). -/
def json_map_get_value_string (map_value : List (String × json_node_t)) (key : String) :
    Option String :=
  match map_value.lookup key with
  | some (json_node_t.STRING_VALUE v) => some v
  | _ => none

/-- Modelled from the spec: `json_map_get_value_int(map, key, &value)` of `../json.h`;
`some value` when it returns true: the map has a member `key` and it is an integer
("`expires_in` (integer seconds)"). -/
def json_map_get_value_int (map_value : List (String × json_node_t)) (key : String) :
    Option Int :=
  match map_value.lookup key with
  | some (json_node_t.INTEGER_VALUE v) => some v
  | _ => none

/-- What lies outside `authenticate.c`: the JSON parser (`none` for a `NULL` result), the
URL encoder, the settings, and the value that `time(NULL)` gives when the response is
parsed. -/
structure externals where
  string_to_json : String → Option json_node_t
  net_http_urlencode : String → String
  settings : settings_t
  time : Int

def CLIENT_ID_PARAM_NAME : String := "client_id"
def CLIENT_SECRET_PARAM_NAME : String := "client_secret"
def REDIRECT_URI_NAME : String := "redirect_uri"
def REFRESH_TOKEN_URL : String := "https://login.microsoftonline.com/common/oauth2/v2.0/token"
def REFRESH_TOKEN_PARAM_NAME : String := "refresh_token"
def GRANT_TYPE_PARAM_NAME : String := "grant_type"
def GRANT_TYPE_PARAM_VALUE : String := "refresh_token"

/-- The record `struct authenticate_extra_state_t`.  A callback (a function pointer) and
the caller's data pointer are kept as the addresses they are. -/
structure authenticate_extra_state_t where
  callback : Nat
  data : Nat
deriving DecidableEq, Repr

/-- The function stored in `free_extra_state`. -/
inductive free_extra_state_fn where
  | free_authenticate_extra_state
deriving DecidableEq, Repr

/-- The fields of `cloud_storage_operation_state_t` the file uses. -/
structure cloud_storage_operation_state_t where
  continuation_data : Nat
  extra_state : authenticate_extra_state_t
  complete : Bool
  free_extra_state : Option free_extra_state_fn
deriving DecidableEq, Repr

/-- One invocation `callback(continuation_data, success, data)`. -/
structure callback_call where
  callback : Nat
  continuation_data : Nat
  success : Bool
  data : Nat
deriving DecidableEq, Repr

/-- One invocation `cloud_storage_save_access_token(provider_name, token, expiration)`. -/
structure saved_access_token where
  provider_name : String
  access_token : String
  expiration_time : Int
deriving DecidableEq, Repr

/-- What the handlers act on: the provider data reached through
`continuation_data->provider_state->provider_data`, the calls made so far to the
credential store, and the calls made so far to callbacks. -/
structure world where
  provider_data : cloud_storage_onedrive_provider_data_t
  saved : List saved_access_token
  callback_calls : List callback_call
deriving DecidableEq, Repr

def get_new_access_token_failure_handler (_response : http_response_t)
    (state : cloud_storage_operation_state_t) (w : world) :
    cloud_storage_operation_state_t × world :=
  let extra_state := state.extra_state
  let w := { w with
    callback_calls := w.callback_calls ++
      [{ callback := extra_state.callback, continuation_data := state.continuation_data,
         success := false, data := extra_state.data }] }
  ({ state with complete := true }, w)

/-- The least value of `int64_t` and of a 64-bit `time_t`. -/
def INT64_MIN : Int := -9223372036854775808

/-- The greatest value of `int64_t` and of a 64-bit `time_t`. -/
def INT64_MAX : Int := 9223372036854775807

/-- The 64-bit two's complement value of an integer: the value itself when it lies
between `INT64_MIN` and `INT64_MAX`, and the value shifted by a multiple of 2^64 into that
range otherwise. -/
def wrap_int64 (x : Int) : Int :=
  (x + 9223372036854775808) % 18446744073709551616 - 9223372036854775808

/-- The function `parse_access_token_reponse(json, &new_access_token, &expiration_time)`:
`some` of the pair written to the two out-parameters, `none` when it returns before
writing them.  The sum `time(NULL) + expires_in` is a 64-bit signed sum. -/
def parse_access_token_reponse (ext : externals) (json : json_node_t) : Option (String × Int) :=
  match json with
  | json_node_t.OBJECT_VALUE map_value =>
    match json_map_get_value_string map_value "access_token" with
    | none => none
    | some parsed_access_token =>
      match json_map_get_value_int map_value "expires_in" with
      | none => none
      | some expires_in => some (parsed_access_token, wrap_int64 (ext.time + expires_in))
  | _ => none

def refresh_token_request_body (ext : externals) : String :=
  let encoded_client_id := ext.net_http_urlencode ext.settings.cloud_storage_onedrive_client_id
  let encoded_redirect_uri :=
    ext.net_http_urlencode "https://login.microsoftonline.com/common/oauth2/nativeclient"
  let encoded_refresh_token :=
    ext.net_http_urlencode ext.settings.cloud_storage_onedrive_refresh_token
  cloud_storage_join_strings
    [CLIENT_ID_PARAM_NAME, "=", encoded_client_id, "&",
     REDIRECT_URI_NAME, "=", encoded_redirect_uri, "&",
     REFRESH_TOKEN_PARAM_NAME, "=", encoded_refresh_token, "&",
     GRANT_TYPE_PARAM_NAME, "=", GRANT_TYPE_PARAM_VALUE]

def get_new_access_token_success_handler (ext : externals) (response : http_response_t)
    (state : cloud_storage_operation_state_t) (w : world) :
    cloud_storage_operation_state_t × world :=
  let data := net_http_response_get_data response false
  let json_text := data.getD ""
  let json := ext.string_to_json json_text
  let new_access_token : Option (String × Int) :=
    match json with
    | some json => parse_access_token_reponse ext json
    | none => none
  let w : world :=
    match new_access_token with
    | some (new_access_token, expiration_time) =>
      { w with
        provider_data :=
          { access_token := access_token_ptr.str new_access_token,
            access_token_expiration_time := expiration_time },
        saved := w.saved ++
          [{ provider_name := "onedrive", access_token := new_access_token,
             expiration_time := expiration_time }] }
    | none => w
  let extra_state := state.extra_state
  let w := { w with
    callback_calls := w.callback_calls ++
      [{ callback := extra_state.callback, continuation_data := state.continuation_data,
         success := true, data := extra_state.data }] }
  ({ state with complete := true }, w)

/-- The two static functions of the file that are registered as response handlers. -/
inductive response_handler where
  | get_new_access_token_success_handler
  | get_new_access_token_failure_handler
deriving DecidableEq, Repr

/-- Calling a registered handler through its function pointer. -/
def response_handler.call (ext : externals) : response_handler → http_response_t →
    cloud_storage_operation_state_t → world → cloud_storage_operation_state_t × world
  | response_handler.get_new_access_token_success_handler =>
    CloudStorage.OneDrive.get_new_access_token_success_handler ext
  | response_handler.get_new_access_token_failure_handler =>
    CloudStorage.OneDrive.get_new_access_token_failure_handler

/-- One `rest_api_request_set_response_handler(request, status, flag, handler, state)`
registration.  The boolean third argument is recorded as `flag`; nothing in the sources at
hand says what it means, and nothing below depends on it.  The state argument is the one
operation state of the request, kept in the request. -/
structure registered_handler where
  status : Int
  flag : Bool
  handler : response_handler
deriving DecidableEq, Repr

/-- Modelled from the spec: the `rest_api_request_t` of `../rest-lib/rest_api.h`, which is
not among the sources: "one REST call as a request plus a dispatch table mapping status
codes to handlers, with an optional default handler", and the operation state that
every registration of the request was given. -/
structure rest_api_request_t where
  http_request : http_request_t
  handlers : List registered_handler
  default_handler : Option (Bool × response_handler)
  state : cloud_storage_operation_state_t
deriving DecidableEq, Repr

def rest_api_request_new (http_request : http_request_t)
    (state : cloud_storage_operation_state_t) : rest_api_request_t :=
  { http_request := http_request, handlers := [], default_handler := none, state := state }

def rest_api_request_set_response_handler (request : rest_api_request_t) (status : Int)
    (flag : Bool) (handler : response_handler) : rest_api_request_t :=
  { request with
    handlers := request.handlers ++ [{ status := status, flag := flag, handler := handler }] }

def rest_api_request_set_default_response_handler (request : rest_api_request_t)
    (flag : Bool) (handler : response_handler) : rest_api_request_t :=
  { request with default_handler := some (flag, handler) }

/-- Modelled from the spec: the handler that the dispatch of `../rest-lib` (not among the
sources) picks for a response: the one registered for its status code, else the default
handler, if any. -/
def rest_api_select_handler (request : rest_api_request_t) (response : http_response_t) :
    Option response_handler :=
  match request.handlers.find? (fun r => r.status = net_http_response_get_status response) with
  | some r => some r.handler
  | none => request.default_handler.map (fun d => d.2)

/-- Modelled from the spec: delivery of a response to a submitted request: the selected
handler is called with the response and the operation state of the request; without a
matching handler nothing happens. -/
def rest_api_deliver (ext : externals) (request : rest_api_request_t)
    (response : http_response_t) (w : world) : cloud_storage_operation_state_t × world :=
  match rest_api_select_handler request response with
  | some handler => handler.call ext response request.state w
  | none => (request.state, w)

/-- The function `cloud_storage_onedrive_authenticate(continuation_data, callback,
callback_data)` up to and including the submission `rest_api_request_execute`: the world
it leaves and the request it has submitted.  `none`: the function called `free` on an
access token that had been freed before. -/
def cloud_storage_onedrive_authenticate (ext : externals) (continuation_data callback
    callback_data : Nat) (w : world) : Option (world × rest_api_request_t) :=
  match (if w.provider_data.access_token ≠ access_token_ptr.NULL
      then free w.provider_data.access_token else some w.provider_data.access_token) with
  | none => none
  | some access_token =>
    let w := { w with
      provider_data := { access_token := access_token, access_token_expiration_time := 0 } }
    let http_request := net_http_request_new
    let http_request := net_http_request_set_url http_request REFRESH_TOKEN_URL
    let http_request := net_http_request_set_method http_request "POST"
    let http_request := net_http_request_set_header http_request "Content-Type"
      "application/x-www-form-urlencoded" true
    let body := refresh_token_request_body ext
    let http_request := net_http_request_set_body http_request body
    let http_request := net_http_request_set_log_request_body http_request true
    let http_request := net_http_request_set_log_response_body http_request true
    let operation_state : cloud_storage_operation_state_t :=
      { continuation_data := continuation_data,
        extra_state := { callback := callback, data := callback_data },
        complete := false,
        free_extra_state := some free_extra_state_fn.free_authenticate_extra_state }
    let rest_request := rest_api_request_new http_request operation_state
    let rest_request := rest_api_request_set_response_handler rest_request 200 false
      response_handler.get_new_access_token_success_handler
    let rest_request := rest_api_request_set_response_handler rest_request 500 true
      response_handler.get_new_access_token_failure_handler
    let rest_request := rest_api_request_set_default_response_handler rest_request false
      response_handler.get_new_access_token_failure_handler
    some (w, rest_request)

/-! ## `cloud-storage/onedrive/download_file.c` -/

def DOWNLOAD_FILES_URL : String := "https://graph.microsoft.com/v1.0/me/drive/"

def _create_http_request (download_url : Option String) : http_request_t :=
  let http_request := net_http_request_new
  let http_request :=
    match download_url with
    | some url => net_http_request_set_url http_request url
    | none => http_request
  let http_request := net_http_request_set_method http_request "GET"
  http_request

/-- The function `cloud_storage_onedrive_download_file(file_to_download, local_file)`,
over the transport `onedrive_rest_execute_request` (`none` for a `NULL` response).
`none`: `file_to_download` is `NULL`, the call is undefined. -/
def cloud_storage_onedrive_download_file
    (onedrive_rest_execute_request : rest_request_t → Option http_response_t)
    (file_to_download : cloud_storage_item_t) (local_file : String) : Option Bool :=
  match file_to_download with
  | cloud_storage_item_t.NULL => none
  | cloud_storage_item_t.item _ _ _ _ file _ _ =>
    let downloaded := false
    let http_request := _create_http_request file.download_url
    let http_request := net_http_request_set_response_file http_request local_file
    let rest_request := rest_request_new http_request
    match onedrive_rest_execute_request rest_request with
    | none => some downloaded
    | some http_response =>
      if net_http_response_get_status http_response = 200 then some true
      else some downloaded

/-! ### Sample surroundings -/

/-- The text of a token response with both members, `access_token` = `abc` and
`expires_in` = `3600`. -/
def token_response_text : String :=
  "\x7b\"access_token\":\"abc\",\"expires_in\":3600\x7d"

/-- The text of a token response that lacks `access_token`. -/
def token_response_without_token_text : String :=
  "\x7b\"expires_in\":3600\x7d"

/-- Sample surroundings: a JSON parser that knows the two texts above and rejects every
other text, an identity URL encoder, settings, and the clock at 1000. -/
def sample_externals : externals where
  string_to_json := fun text =>
    if text = token_response_text then
      some (json_node_t.OBJECT_VALUE
        [("access_token", json_node_t.STRING_VALUE "abc"),
         ("expires_in", json_node_t.INTEGER_VALUE 3600)])
    else if text = token_response_without_token_text then
      some (json_node_t.OBJECT_VALUE [("expires_in", json_node_t.INTEGER_VALUE 3600)])
    else none
  net_http_urlencode := fun source => source
  settings :=
    { cloud_storage_onedrive_client_id := "client",
      cloud_storage_onedrive_refresh_token := "refresh" }
  time := 1000

/-- The text of a token response whose `expires_in` is the greatest `int64_t`. -/
def token_response_max_text : String :=
  "\x7b\"access_token\":\"abc\",\"expires_in\":9223372036854775807\x7d"

/-- The sample surroundings with a JSON parser that knows the text above. -/
def max_expiry_externals : externals where
  string_to_json := fun text =>
    if text = token_response_max_text then
      some (json_node_t.OBJECT_VALUE
        [("access_token", json_node_t.STRING_VALUE "abc"),
         ("expires_in", json_node_t.INTEGER_VALUE 9223372036854775807)])
    else none
  net_http_urlencode := fun source => source
  settings :=
    { cloud_storage_onedrive_client_id := "client",
      cloud_storage_onedrive_refresh_token := "refresh" }
  time := 1000

/-- A world in which the provider holds the access token `old`, valid until 500. -/
def world_with_token : world :=
  { provider_data :=
      { access_token := access_token_ptr.str "old", access_token_expiration_time := 500 },
    saved := [], callback_calls := [] }

/-- The operation state `cloud_storage_onedrive_authenticate` sets up for the
continuation data 1, the callback 7 and the callback data 9. -/
def sample_state : cloud_storage_operation_state_t :=
  { continuation_data := 1, extra_state := { callback := 7, data := 9 }, complete := false,
    free_extra_state := some free_extra_state_fn.free_authenticate_extra_state }

/-- The world `cloud_storage_onedrive_authenticate` leaves when it starts a refresh in
`world_with_token`. -/
def refresh_world : world :=
  { provider_data :=
      { access_token := access_token_ptr.freed, access_token_expiration_time := 0 },
    saved := [], callback_calls := [] }

/-- The request `cloud_storage_onedrive_authenticate` submits in the sample surroundings
for the continuation data 1, the callback 7 and the callback data 9. -/
def refresh_request : rest_api_request_t :=
  { http_request :=
      { url := "https://login.microsoftonline.com/common/oauth2/v2.0/token",
        method := "POST",
        url_params := [],
        headers := [("Content-Type", "application/x-www-form-urlencoded")],
        body := some ("client_id=client&redirect_uri=https://login.microsoftonline.com/"
          ++ "common/oauth2/nativeclient&refresh_token=refresh&grant_type=refresh_token"),
        response_file := none,
        log_request_body := true,
        log_response_body := true },
    handlers :=
      [⟨200, false, response_handler.get_new_access_token_success_handler⟩,
       ⟨500, true, response_handler.get_new_access_token_failure_handler⟩],
    default_handler := some (false, response_handler.get_new_access_token_failure_handler),
    state := sample_state }

/-- A transport for downloads that answers every request with the given response. -/
def constant_transport (response : Option http_response_t) :
    rest_request_t → Option http_response_t :=
  fun _ => response

end OneDrive

/-! # Theorems -/

namespace Google

/-! ## Sibling chains -/

theorem scan_last_eq_none (head : cloud_storage_item_t) :
    head.scan_last = none ↔ head = NULL := by
  induction head with
  | NULL => simp [scan_last]
  | item i n t ty f c nx _ ihn =>
    by_cases hnx : nx = NULL
    · simp [scan_last, hnx]
    · simp [scan_last, hnx, ihn]

/-- Writing `q` into the `next` field of the node the tail scan stops at appends the
chain `q` to the sibling sequence. -/
theorem siblings_set_next_at_scan_last (head q : cloud_storage_item_t) (k : Nat)
    (h : head.scan_last = some k) :
    (head.set_next_at k q).siblings = head.siblings ++ q.siblings := by
  induction head generalizing k with
  | NULL => simp [scan_last] at h
  | item i n t ty f c nx _ ihn =>
    by_cases hnx : nx = NULL
    · subst hnx
      simp only [scan_last, if_true, Option.some.injEq] at h
      subst h
      simp [set_next_at, siblings]
    · simp only [scan_last, hnx, if_false, Option.map_eq_some'] at h
      obtain ⟨k2, hk2, rfl⟩ := h
      have ih := ihn k2 hk2
      simp only [set_next_at, siblings, List.cons_append, List.cons.injEq, true_and]
      exact ih

/-- The linking step of the listing loop, entered with `last_child` as the tail scan of the
children leaves it, appends the new items to the children and touches nothing else. -/
theorem link_new_items_spec (folder new_items : cloud_storage_item_t) (hfolder : folder ≠ NULL) :
    (link_new_items folder folder.folder_children.scan_last new_items).1.folder_children.siblings
        = folder.folder_children.siblings ++ new_items.siblings ∧
      (link_new_items folder folder.folder_children.scan_last new_items).1.set_folder_children NULL
        = folder.set_folder_children NULL := by
  cases folder with
  | NULL => exact absurd rfl hfolder
  | item i n t ty f c nx =>
    by_cases hnew : new_items = NULL
    · subst hnew
      simp [link_new_items, siblings]
    · cases hk : c.scan_last with
      | none =>
        have hc : c = NULL := (scan_last_eq_none c).mp hk
        subst hc
        simp [link_new_items, hnew, folder_children, set_folder_children, siblings, scan_last]
      | some k =>
        simp [link_new_items, hnew, folder_children, set_folder_children, hk,
          siblings_set_next_at_scan_last c new_items k hk]

/-- The value `_get_list_files_next_page` leaves in `*new_value` is the one it found there,
or `NULL`: the token of the page is never written to it. -/
theorem get_list_files_next_page_new_value (ext : externals) (fuel : Nat)
    (folder : cloud_storage_item_t) (next_page_token : Option String)
    (items : cloud_storage_item_t) (new_value : Option String)
    (h : _get_list_files_next_page ext fuel folder next_page_token none
      = some (items, new_value)) :
    new_value = none := by
  unfold _get_list_files_next_page at h
  simp only at h
  split at h
  · simp only [Option.some.injEq, Prod.mk.injEq] at h
    exact h.2.symm
  · split at h
    · split at h
      · exact absurd h (by simp)
      · simp only [Option.some.injEq, Prod.mk.injEq] at h
        exact h.2.symm
    · simp only [Option.some.injEq, Prod.mk.injEq] at h
      exact h.2.symm

/-- The `do ... while (next_value)` loop is left after its first pass: whatever the
bound on the passes, the result is that of a single pass. -/
theorem list_files_loop_single_pass (ext : externals) (fuel iterations : Nat)
    (s : list_files_state) :
    list_files_loop ext fuel (iterations + 1) s =
      (_get_list_files_next_page ext fuel s.folder s.next_value none).map
        (fun r =>
          { folder := (link_new_items s.folder s.last_child r.1).1,
            last_child := (link_new_items s.folder s.last_child r.1).2,
            next_page_token := s.next_value, next_value := none }) := by
  unfold list_files_loop
  cases h : _get_list_files_next_page ext fuel s.folder s.next_value none with
  | none => simp [h]
  | some r =>
    obtain ⟨items, new_value⟩ := r
    have hnv := get_list_files_next_page_new_value ext fuel s.folder s.next_value items new_value h
    subst hnv
    simp [h]

/-- A listing page with status 200: what `_get_list_files_next_page` returns. -/
theorem get_list_files_next_page_ok (ext : externals) (fuel : Nat)
    (folder : cloud_storage_item_t) (next_page_token : Option String)
    (http_response : http_response_t)
    (hexec : ext.google_rest_execute_request
      (rest_request_new (_create_http_request folder next_page_token)) = some http_response)
    (hstatus : net_http_response_get_status http_response = 200) :
    _get_list_files_next_page ext fuel folder next_page_token none =
      (_process_response ext fuel http_response next_page_token).map (fun r => (r.1, none)) := by
  unfold _get_list_files_next_page
  simp only [hexec, hstatus, if_true]
  cases _process_response ext fuel http_response next_page_token with
  | none => rfl
  | some r => rfl

/-- The whole call on a folder whose first listing request is answered with status 200. -/
theorem list_files_first_page (ext : externals) (fuel iterations : Nat)
    (folder : cloud_storage_item_t) (http_response : http_response_t)
    (hfolder : folder.get_item_type = some cloud_storage_item_type_t.CLOUD_STORAGE_FOLDER)
    (hexec : ext.google_rest_execute_request
      (rest_request_new (_create_http_request folder none)) = some http_response)
    (hstatus : net_http_response_get_status http_response = 200) :
    cloud_storage_google_list_files ext fuel (iterations + 1) folder =
      (_process_response ext fuel http_response none).map
        (fun r => (link_new_items folder folder.folder_children.scan_last r.1).1) := by
  have hne : folder ≠ NULL := by
    intro h
    subst h
    simp [get_item_type] at hfolder
  unfold cloud_storage_google_list_files
  rw [if_neg (by simp [hne, hfolder])]
  simp only [list_files_loop_single_pass,
    get_list_files_next_page_ok ext fuel folder none http_response hexec hstatus]
  cases _process_response ext fuel http_response none with
  | none => rfl
  | some r => rfl

/-! ## The claims on `cloud_storage_google_list_files` -/

/-- C1, evaluated on the code.  The sample remote has three pages chained by tokens
(page 1: `a`, `b`, token `T1`; page 2: `c`, `d`, token `T2`; page 3: empty, no token), and
each page parses to its items and its token.  Listing an empty folder against it leaves
the children `a`, `b`: the items of page 1 only, not those of page 1 followed by those of
page 2. -/
theorem list_files_three_pages_only_first :
    _process_response three_pages 100 ⟨200, "page1"⟩ none
        = some (sample_file "a" "a.srm" (sample_file "b" "b.srm" NULL), some "T1") ∧
      _process_response three_pages 100 ⟨200, "page2"⟩ (some "T1")
        = some (sample_file "c" "c.srm" (sample_file "d" "d.srm" NULL), some "T2") ∧
      _process_response three_pages 100 ⟨200, "page3"⟩ (some "T2") = some (NULL, some "T2") ∧
      three_pages.google_rest_execute_request
          (rest_request_new (_create_http_request (sample_folder NULL) (some "T1")))
        = some ⟨200, "page2"⟩ ∧
      (∀ iterations : Nat,
        cloud_storage_google_list_files three_pages 100 (iterations + 1) (sample_folder NULL)
          = some (sample_folder (sample_file "a" "a.srm" (sample_file "b" "b.srm" NULL)))) ∧
      (sample_folder (sample_file "a" "a.srm" (sample_file "b" "b.srm" NULL))).folder_children.siblings
        ≠ (sample_file "a" "a.srm" (sample_file "b" "b.srm" NULL)).siblings
          ++ (sample_file "c" "c.srm" (sample_file "d" "d.srm" NULL)).siblings := by
  have page1 : _process_response three_pages 100 ⟨200, "page1"⟩ none
      = some (sample_file "a" "a.srm" (sample_file "b" "b.srm" NULL), some "T1") := by decide
  refine ⟨page1, by decide, by decide, by decide, ?_, by decide⟩
  intro iterations
  rw [list_files_first_page three_pages 100 iterations (sample_folder NULL) ⟨200, "page1"⟩
    (by decide) (by decide) (by decide), page1]
  decide

/-- C2.  For a folder with any children and a listing answered by a single page (status
200, no continuation token) that parses to the chain `P`, the call returns, and the
children of the folder afterwards are the children it had, in their order, followed by
the items of `P` in their order; the rest of the folder is as it was. -/
theorem list_files_single_page_appends (ext : externals) (fuel iterations : Nat)
    (folder P : cloud_storage_item_t) (http_response : http_response_t)
    (hfolder : folder.get_item_type = some cloud_storage_item_type_t.CLOUD_STORAGE_FOLDER)
    (hexec : ext.google_rest_execute_request
      (rest_request_new (_create_http_request folder none)) = some http_response)
    (hstatus : net_http_response_get_status http_response = 200)
    (hparse : _process_response ext fuel http_response none = some (P, none)) :
    ∃ folder1, cloud_storage_google_list_files ext fuel (iterations + 1) folder = some folder1 ∧
      folder1.folder_children.siblings = folder.folder_children.siblings ++ P.siblings ∧
      folder1.set_folder_children NULL = folder.set_folder_children NULL := by
  have hne : folder ≠ NULL := by
    intro h
    subst h
    simp [get_item_type] at hfolder
  refine ⟨(link_new_items folder folder.folder_children.scan_last P).1, ?_,
    (link_new_items_spec folder P hne).1, (link_new_items_spec folder P hne).2⟩
  rw [list_files_first_page ext fuel iterations folder http_response hfolder hexec hstatus,
    hparse]
  rfl

theorem list_files_single_page_appends_witness :
    ∃ folder1,
      cloud_storage_google_list_files (one_page false) 100 1
          (sample_folder (sample_file "z" "z.srm" NULL)) = some folder1 ∧
      folder1.folder_children.siblings
        = (sample_file "z" "z.srm" NULL).siblings
          ++ (sample_file "a" "a.srm" (sample_file "b" "b.srm" NULL)).siblings ∧
      folder1.set_folder_children NULL
        = (sample_folder (sample_file "z" "z.srm" NULL)).set_folder_children NULL :=
  list_files_single_page_appends (one_page false) 100 0
    (sample_folder (sample_file "z" "z.srm" NULL))
    (sample_file "a" "a.srm" (sample_file "b" "b.srm" NULL)) ⟨200, "page"⟩
    (by decide) (by decide) (by decide) (by decide)

/-- C3.  When the listing of a folder is answered by a single page (status 200) that
holds no items and no continuation token, the call returns the folder exactly as it was,
and so does any number of calls in a row. -/
theorem list_files_empty_page_identity (ext : externals) (fuel iterations : Nat)
    (folder : cloud_storage_item_t) (http_response : http_response_t)
    (hexec : ext.google_rest_execute_request
      (rest_request_new (_create_http_request folder none)) = some http_response)
    (hstatus : net_http_response_get_status http_response = 200)
    (hparse : _process_response ext fuel http_response none = some (NULL, none))
    (n : Nat) :
    (fun o : Option cloud_storage_item_t =>
        o.bind (cloud_storage_google_list_files ext fuel (iterations + 1)))^[n] (some folder)
      = some folder := by
  have once : cloud_storage_google_list_files ext fuel (iterations + 1) folder = some folder := by
    by_cases hfolder :
        folder.get_item_type = some cloud_storage_item_type_t.CLOUD_STORAGE_FOLDER
    · rw [list_files_first_page ext fuel iterations folder http_response hfolder hexec hstatus,
        hparse]
      simp [link_new_items]
    · unfold cloud_storage_google_list_files
      rw [if_pos (Or.inr hfolder)]
  induction n with
  | zero => rfl
  | succ n ih =>
    rw [Function.iterate_succ_apply]
    simpa [once] using ih

theorem list_files_empty_page_identity_witness :
    (fun o : Option cloud_storage_item_t =>
        o.bind (cloud_storage_google_list_files (one_page true) 100 1))^[3]
        (some (sample_folder (sample_file "z" "z.srm" NULL)))
      = some (sample_folder (sample_file "z" "z.srm" NULL)) :=
  list_files_empty_page_identity (one_page true) 100 0
    (sample_folder (sample_file "z" "z.srm" NULL)) ⟨200, "page"⟩
    (by decide) (by decide) (by decide) 3

end Google

namespace OneDrive

/-! ## The refresh flow of `cloud_storage_onedrive_authenticate` -/

/-- What `cloud_storage_onedrive_authenticate` leaves behind when it returns: the world
with the expiration cleared and the access token field as `free` left it, and a request
with the handler table of the source and a fresh operation state. -/
theorem authenticate_spec (ext : externals) (continuation_data callback callback_data : Nat)
    (w w1 : world) (request : rest_api_request_t)
    (h : cloud_storage_onedrive_authenticate ext continuation_data callback callback_data w
      = some (w1, request)) :
    free w.provider_data.access_token = some w1.provider_data.access_token ∧
      w1.provider_data.access_token_expiration_time = 0 ∧
      w1.saved = w.saved ∧ w1.callback_calls = w.callback_calls ∧
      request.handlers =
        [⟨200, false, response_handler.get_new_access_token_success_handler⟩,
         ⟨500, true, response_handler.get_new_access_token_failure_handler⟩] ∧
      request.default_handler
        = some (false, response_handler.get_new_access_token_failure_handler) ∧
      request.state =
        { continuation_data := continuation_data,
          extra_state := { callback := callback, data := callback_data },
          complete := false,
          free_extra_state := some free_extra_state_fn.free_authenticate_extra_state } := by
  unfold cloud_storage_onedrive_authenticate at h
  cases hp : w.provider_data.access_token with
  | NULL =>
    simp only [hp, ne_eq, not_true_eq_false, if_false, Option.some.injEq,
      Prod.mk.injEq] at h
    obtain ⟨hw, hr⟩ := h
    subst hw hr
    simp [free, rest_api_request_new, rest_api_request_set_response_handler,
      rest_api_request_set_default_response_handler]
  | str s0 =>
    simp only [hp, ne_eq, reduceCtorEq, not_false_eq_true, if_true, free, Option.some.injEq,
      Prod.mk.injEq] at h
    obtain ⟨hw, hr⟩ := h
    subst hw hr
    simp [free, rest_api_request_new, rest_api_request_set_response_handler,
      rest_api_request_set_default_response_handler]
  | freed =>
    simp [hp, free] at h

/-- The handler the request of a refresh has for a response: the success handler for
status 200, the failure handler for every other status. -/
theorem select_handler_of_authenticate (ext : externals)
    (continuation_data callback callback_data : Nat) (w w1 : world)
    (request : rest_api_request_t) (response : http_response_t)
    (h : cloud_storage_onedrive_authenticate ext continuation_data callback callback_data w
      = some (w1, request)) :
    rest_api_select_handler request response =
      some (if net_http_response_get_status response = 200
        then response_handler.get_new_access_token_success_handler
        else response_handler.get_new_access_token_failure_handler) := by
  obtain ⟨_, _, _, _, hh, hd, _⟩ :=
    authenticate_spec ext continuation_data callback callback_data w w1 request h
  unfold rest_api_select_handler
  rw [hh, hd]
  by_cases h200 : net_http_response_get_status response = 200
  · simp [List.find?, h200]
  · by_cases h500 : net_http_response_get_status response = 500
    · simp [List.find?, h500]
    · have e200 : ¬ ((200 : Int) = net_http_response_get_status response) :=
        fun e => h200 e.symm
      have e500 : ¬ ((500 : Int) = net_http_response_get_status response) :=
        fun e => h500 e.symm
      simp [List.find?, h200, e200, e500]

/-- The success handler on a response with status 200: the token pair that
`parse_access_token_reponse` writes, if any, is stored and saved; the callback is called
with `true` in every case. -/
theorem success_handler_spec (ext : externals) (response : http_response_t)
    (state : cloud_storage_operation_state_t) (w : world)
    (hstatus : net_http_response_get_status response = 200) :
    get_new_access_token_success_handler ext response state w =
      ({ state with complete := true },
       match (ext.string_to_json response.data).bind (parse_access_token_reponse ext) with
       | some (token, expiration) =>
         { provider_data :=
             { access_token := access_token_ptr.str token,
               access_token_expiration_time := expiration },
           saved := w.saved ++ [⟨"onedrive", token, expiration⟩],
           callback_calls := w.callback_calls ++
             [⟨state.extra_state.callback, state.continuation_data, true,
               state.extra_state.data⟩] }
       | none =>
         { w with
           callback_calls := w.callback_calls ++
             [⟨state.extra_state.callback, state.continuation_data, true,
               state.extra_state.data⟩] }) := by
  have hs : response.status = 200 := hstatus
  unfold get_new_access_token_success_handler
  simp only [net_http_response_get_data, hs, le_refl, true_and, Option.getD]
  cases hj : ext.string_to_json response.data with
  | none => simp [hj]
  | some json =>
    cases hp : parse_access_token_reponse ext json with
    | none => simp [hj, hp]
    | some r => simp [hj, hp]

/-- Delivery of a response to the request of a refresh, by status. -/
theorem deliver_of_authenticate (ext : externals)
    (continuation_data callback callback_data : Nat) (w w1 : world)
    (request : rest_api_request_t) (response : http_response_t)
    (h : cloud_storage_onedrive_authenticate ext continuation_data callback callback_data w
      = some (w1, request)) :
    rest_api_deliver ext request response w1 =
      if net_http_response_get_status response = 200
      then get_new_access_token_success_handler ext response request.state w1
      else get_new_access_token_failure_handler response request.state w1 := by
  unfold rest_api_deliver
  rw [select_handler_of_authenticate ext continuation_data callback callback_data w w1 request
    response h]
  by_cases h200 : net_http_response_get_status response = 200
  · simp [h200, response_handler.call]
  · simp [h200, response_handler.call]

/-! ## The claims on the refresh flow -/

/-- A sum that fits a 64-bit `time_t` is stored as it is. -/
theorem wrap_int64_of_fits (x : Int) (hmin : INT64_MIN ≤ x) (hmax : x ≤ INT64_MAX) :
    wrap_int64 x = x := by
  unfold INT64_MIN at hmin
  unfold INT64_MAX at hmax
  unfold wrap_int64
  omega

/-- C4, refuted as stated.  With the clock at 1000, a token response with status 200 that
holds `access_token` = `abc` and `expires_in` = 9223372036854775807 (the greatest
`int64_t`) leaves the expiration -9223372036854774809, the 64-bit sum, and saves this
value: not 1000 + 9223372036854775807. -/
theorem refresh_success_expiration_wraps :
    cloud_storage_onedrive_authenticate max_expiry_externals 1 7 9 world_with_token
        = some (refresh_world, refresh_request) ∧
      (rest_api_deliver max_expiry_externals refresh_request ⟨200, token_response_max_text⟩
        refresh_world).2.provider_data
        = { access_token := access_token_ptr.str "abc",
            access_token_expiration_time := -9223372036854774809 } ∧
      (rest_api_deliver max_expiry_externals refresh_request ⟨200, token_response_max_text⟩
        refresh_world).2.saved = [⟨"onedrive", "abc", -9223372036854774809⟩] ∧
      (rest_api_deliver max_expiry_externals refresh_request ⟨200, token_response_max_text⟩
        refresh_world).2.provider_data.access_token_expiration_time
        ≠ max_expiry_externals.time + 9223372036854775807 := by
  refine ⟨by decide, by decide, by decide, by decide⟩

/-- C4, amended.  When a refresh receives status 200 with a body that parses to a JSON
object holding `access_token` = `t` and `expires_in` = `e`, and the sum `time + e` fits a
64-bit `time_t` (`time` being the clock value read while parsing), the provider data
afterwards hold the token `t` with the expiration `time + e`, and exactly one entry is
added to the credential store: the same pair under the provider name `onedrive`. -/
theorem refresh_success_sets_and_saves (ext : externals)
    (continuation_data callback callback_data : Nat) (w w1 : world)
    (request : rest_api_request_t) (response : http_response_t)
    (map_value : List (String × json_node_t)) (t : String) (e : Int)
    (hstart : cloud_storage_onedrive_authenticate ext continuation_data callback callback_data w
      = some (w1, request))
    (hstatus : net_http_response_get_status response = 200)
    (hjson : ext.string_to_json response.data = some (json_node_t.OBJECT_VALUE map_value))
    (htoken : json_map_get_value_string map_value "access_token" = some t)
    (hexpires : json_map_get_value_int map_value "expires_in" = some e)
    (hmin : INT64_MIN ≤ ext.time + e) (hmax : ext.time + e ≤ INT64_MAX) :
    (rest_api_deliver ext request response w1).2.provider_data
        = { access_token := access_token_ptr.str t,
            access_token_expiration_time := ext.time + e } ∧
      (rest_api_deliver ext request response w1).2.saved
        = w.saved ++ [⟨"onedrive", t, ext.time + e⟩] := by
  obtain ⟨_, _, hsaved, _, _, _, _⟩ :=
    authenticate_spec ext continuation_data callback callback_data w w1 request hstart
  rw [deliver_of_authenticate ext continuation_data callback callback_data w w1 request
    response hstart, if_pos hstatus, success_handler_spec ext response request.state w1 hstatus]
  simp [hjson, parse_access_token_reponse, htoken, hexpires, hsaved,
    wrap_int64_of_fits (ext.time + e) hmin hmax]

theorem refresh_success_sets_and_saves_witness :
    (rest_api_deliver sample_externals refresh_request ⟨200, token_response_text⟩
        refresh_world).2.provider_data
        = { access_token := access_token_ptr.str "abc",
            access_token_expiration_time := sample_externals.time + 3600 } ∧
      (rest_api_deliver sample_externals refresh_request ⟨200, token_response_text⟩
        refresh_world).2.saved
        = world_with_token.saved ++ [⟨"onedrive", "abc", sample_externals.time + 3600⟩] :=
  refresh_success_sets_and_saves sample_externals 1 7 9 world_with_token refresh_world
    refresh_request ⟨200, token_response_text⟩
    [("access_token", json_node_t.STRING_VALUE "abc"),
     ("expires_in", json_node_t.INTEGER_VALUE 3600)] "abc" 3600
    (by decide) (by decide) (by rfl) (by decide) (by decide) (by decide) (by decide)

/-- What the success handler does with a body that parses to JSON but lacks `access_token`
or lacks `expires_in` (a JSON object without one of the two members, or no object at
all): the callback is still called with `success = true`, the operation is marked
complete, nothing is saved to the credential store, and the provider data are left as
`cloud_storage_onedrive_authenticate` left them when the request was submitted. -/
theorem refresh_missing_field_reports_success (ext : externals)
    (continuation_data callback callback_data : Nat) (w w1 : world)
    (request : rest_api_request_t) (response : http_response_t) (json : json_node_t)
    (hstart : cloud_storage_onedrive_authenticate ext continuation_data callback callback_data w
      = some (w1, request))
    (hstatus : net_http_response_get_status response = 200)
    (hjson : ext.string_to_json response.data = some json)
    (hmissing : ∀ map_value, json = json_node_t.OBJECT_VALUE map_value →
      json_map_get_value_string map_value "access_token" = none ∨
        json_map_get_value_int map_value "expires_in" = none) :
    (rest_api_deliver ext request response w1).2.callback_calls
        = w.callback_calls ++ [⟨callback, continuation_data, true, callback_data⟩] ∧
      (rest_api_deliver ext request response w1).1.complete = true ∧
      (rest_api_deliver ext request response w1).2.provider_data = w1.provider_data ∧
      (rest_api_deliver ext request response w1).2.saved = w.saved := by
  obtain ⟨_, _, hsaved, hcalls, _, _, hstate⟩ :=
    authenticate_spec ext continuation_data callback callback_data w w1 request hstart
  have hparse : parse_access_token_reponse ext json = none := by
    cases json with
    | OBJECT_VALUE map_value =>
      unfold parse_access_token_reponse
      rcases hmissing map_value rfl with h | h
      · simp [h]
      · cases hv : json_map_get_value_string map_value "access_token" with
        | none => simp [hv]
        | some v => simp [hv, h]
    | ARRAY_VALUE l => rfl
    | STRING_VALUE v => rfl
    | INTEGER_VALUE v => rfl
    | OTHER_VALUE => rfl
  rw [deliver_of_authenticate ext continuation_data callback callback_data w w1 request
    response hstart, if_pos hstatus, success_handler_spec ext response request.state w1 hstatus]
  simp [hjson, hparse, hsaved, hcalls, hstate]

theorem refresh_missing_field_reports_success_witness :
    (rest_api_deliver sample_externals refresh_request ⟨200, token_response_without_token_text⟩
        refresh_world).2.callback_calls
        = world_with_token.callback_calls ++ [⟨7, 1, true, 9⟩] ∧
      (rest_api_deliver sample_externals refresh_request ⟨200, token_response_without_token_text⟩
        refresh_world).1.complete = true ∧
      (rest_api_deliver sample_externals refresh_request ⟨200, token_response_without_token_text⟩
        refresh_world).2.provider_data = refresh_world.provider_data ∧
      (rest_api_deliver sample_externals refresh_request ⟨200, token_response_without_token_text⟩
        refresh_world).2.saved = world_with_token.saved :=
  refresh_missing_field_reports_success sample_externals 1 7 9 world_with_token refresh_world
    refresh_request ⟨200, token_response_without_token_text⟩
    (json_node_t.OBJECT_VALUE [("expires_in", json_node_t.INTEGER_VALUE 3600)])
    (by decide) (by decide) (by rfl)
    (fun map_value h => by
      cases h
      exact Or.inl (by decide))

/-- The access token field after a refresh that received status 200 without the two
members: `NULL` when the provider held no token before the refresh, and the pointer to
the freed token (not `NULL`) whenever it held one. -/
theorem refresh_missing_field_token_field (ext : externals)
    (continuation_data callback callback_data : Nat) (w w1 : world)
    (request : rest_api_request_t) (response : http_response_t) (json : json_node_t)
    (hstart : cloud_storage_onedrive_authenticate ext continuation_data callback callback_data w
      = some (w1, request))
    (hstatus : net_http_response_get_status response = 200)
    (hjson : ext.string_to_json response.data = some json)
    (hmissing : ∀ map_value, json = json_node_t.OBJECT_VALUE map_value →
      json_map_get_value_string map_value "access_token" = none ∨
        json_map_get_value_int map_value "expires_in" = none) :
    (w.provider_data.access_token = access_token_ptr.NULL →
        (rest_api_deliver ext request response w1).2.provider_data.access_token
          = access_token_ptr.NULL) ∧
      (∀ token, w.provider_data.access_token = access_token_ptr.str token →
        (rest_api_deliver ext request response w1).2.provider_data.access_token
          = access_token_ptr.freed) := by
  obtain ⟨hfree, _⟩ :=
    authenticate_spec ext continuation_data callback callback_data w w1 request hstart
  obtain ⟨_, _, hdata, _⟩ := refresh_missing_field_reports_success ext continuation_data
    callback callback_data w w1 request response json hstart hstatus hjson hmissing
  rw [hdata]
  constructor
  · intro h
    rw [h] at hfree
    simp only [free, Option.some.injEq] at hfree
    exact hfree.symm
  · intro token h
    rw [h] at hfree
    simp only [free, Option.some.injEq] at hfree
    exact hfree.symm

/-- C5, evaluated on the code.  The provider holds the token `old`; a refresh is started
and receives status 200 with a body that parses to a JSON object without `access_token`.
The callback is called with `success = true` and nothing is saved, but the access token
field is not `NULL` afterwards: it is the pointer to the freed token that
`cloud_storage_onedrive_authenticate` left there. -/
theorem refresh_missing_field_leaves_dangling_token :
    cloud_storage_onedrive_authenticate sample_externals 1 7 9 world_with_token
        = some (refresh_world, refresh_request) ∧
      sample_externals.string_to_json token_response_without_token_text
        = some (json_node_t.OBJECT_VALUE [("expires_in", json_node_t.INTEGER_VALUE 3600)]) ∧
      (rest_api_deliver sample_externals refresh_request ⟨200, token_response_without_token_text⟩
        refresh_world).2.callback_calls = [⟨7, 1, true, 9⟩] ∧
      (rest_api_deliver sample_externals refresh_request ⟨200, token_response_without_token_text⟩
        refresh_world).2.saved = [] ∧
      (rest_api_deliver sample_externals refresh_request ⟨200, token_response_without_token_text⟩
        refresh_world).2.provider_data.access_token = access_token_ptr.freed ∧
      (rest_api_deliver sample_externals refresh_request ⟨200, token_response_without_token_text⟩
        refresh_world).2.provider_data.access_token ≠ access_token_ptr.NULL := by
  refine ⟨by decide, by rfl, by decide, by decide, by decide, by decide⟩

/-- C6.  When a refresh receives a response whose status is not 200, the handler that
`cloud_storage_onedrive_authenticate` registered for it calls the callback with
`success = false` and marks the operation complete; the provider data and the credential
store are left as they were when the request was submitted. -/
theorem refresh_failure_reports_failure (ext : externals)
    (continuation_data callback callback_data : Nat) (w w1 : world)
    (request : rest_api_request_t) (response : http_response_t)
    (hstart : cloud_storage_onedrive_authenticate ext continuation_data callback callback_data w
      = some (w1, request))
    (hstatus : net_http_response_get_status response ≠ 200) :
    rest_api_select_handler request response
        = some response_handler.get_new_access_token_failure_handler ∧
      (rest_api_deliver ext request response w1).2.callback_calls
        = w.callback_calls ++ [⟨callback, continuation_data, false, callback_data⟩] ∧
      (rest_api_deliver ext request response w1).1.complete = true ∧
      (rest_api_deliver ext request response w1).2.provider_data = w1.provider_data ∧
      (rest_api_deliver ext request response w1).2.saved = w.saved := by
  obtain ⟨_, _, hsaved, hcalls, _, _, hstate⟩ :=
    authenticate_spec ext continuation_data callback callback_data w w1 request hstart
  refine ⟨?_, ?_⟩
  · rw [select_handler_of_authenticate ext continuation_data callback callback_data w w1
      request response hstart, if_neg hstatus]
  · rw [deliver_of_authenticate ext continuation_data callback callback_data w w1 request
      response hstart, if_neg hstatus]
    simp [get_new_access_token_failure_handler, hsaved, hcalls, hstate]

theorem refresh_failure_reports_failure_witness :
    rest_api_select_handler refresh_request ⟨404, ""⟩
        = some response_handler.get_new_access_token_failure_handler ∧
      (rest_api_deliver sample_externals refresh_request ⟨404, ""⟩ refresh_world).2.callback_calls
        = world_with_token.callback_calls ++ [⟨7, 1, false, 9⟩] ∧
      (rest_api_deliver sample_externals refresh_request ⟨404, ""⟩ refresh_world).1.complete
        = true ∧
      (rest_api_deliver sample_externals refresh_request ⟨404, ""⟩ refresh_world).2.provider_data
        = refresh_world.provider_data ∧
      (rest_api_deliver sample_externals refresh_request ⟨404, ""⟩ refresh_world).2.saved
        = world_with_token.saved :=
  refresh_failure_reports_failure sample_externals 1 7 9 world_with_token refresh_world
    refresh_request ⟨404, ""⟩ (by decide) (by decide)

/-- C7, refuted as stated.  In the sample surroundings the text `not json` is rejected by
the JSON parser; a refresh that receives it with status 200 calls the callback with
`success = true`, not with `success = false`. -/
theorem refresh_unparsable_body_200_reports_success :
    cloud_storage_onedrive_authenticate sample_externals 1 7 9 world_with_token
        = some (refresh_world, refresh_request) ∧
      sample_externals.string_to_json "not json" = none ∧
      (rest_api_deliver sample_externals refresh_request ⟨200, "not json"⟩
        refresh_world).2.callback_calls = [⟨7, 1, true, 9⟩] ∧
      (rest_api_deliver sample_externals refresh_request ⟨200, "not json"⟩
        refresh_world).2.callback_calls ≠ [⟨7, 1, false, 9⟩] := by
  refine ⟨by decide, by rfl, by decide, by decide⟩

/-- C7, amended.  When a refresh receives a response whose body cannot be parsed as JSON,
the callback is called with `success = false` if the status is not 200 and with
`success = true` if the status is 200; in both cases the provider data and the
credential store are left as they were when the request was submitted. -/
theorem refresh_unparsable_body (ext : externals)
    (continuation_data callback callback_data : Nat) (w w1 : world)
    (request : rest_api_request_t) (response : http_response_t)
    (hstart : cloud_storage_onedrive_authenticate ext continuation_data callback callback_data w
      = some (w1, request))
    (hbody : ext.string_to_json response.data = none) :
    (rest_api_deliver ext request response w1).2.callback_calls
        = w.callback_calls ++
          [⟨callback, continuation_data, decide (net_http_response_get_status response = 200),
            callback_data⟩] ∧
      (rest_api_deliver ext request response w1).2.provider_data = w1.provider_data ∧
      (rest_api_deliver ext request response w1).2.saved = w.saved := by
  obtain ⟨_, _, hsaved, hcalls, _, _, hstate⟩ :=
    authenticate_spec ext continuation_data callback callback_data w w1 request hstart
  rw [deliver_of_authenticate ext continuation_data callback callback_data w w1 request
    response hstart]
  by_cases hstatus : net_http_response_get_status response = 200
  · rw [if_pos hstatus, success_handler_spec ext response request.state w1 hstatus]
    simp [hbody, hsaved, hcalls, hstate, hstatus]
  · rw [if_neg hstatus]
    simp [get_new_access_token_failure_handler, hsaved, hcalls, hstate, hstatus]

theorem refresh_unparsable_body_witness :
    (rest_api_deliver sample_externals refresh_request ⟨503, "not json"⟩
        refresh_world).2.callback_calls
        = world_with_token.callback_calls ++
          [⟨7, 1, decide (net_http_response_get_status ⟨503, "not json"⟩ = 200), 9⟩] ∧
      (rest_api_deliver sample_externals refresh_request ⟨503, "not json"⟩
        refresh_world).2.provider_data = refresh_world.provider_data ∧
      (rest_api_deliver sample_externals refresh_request ⟨503, "not json"⟩
        refresh_world).2.saved = world_with_token.saved :=
  refresh_unparsable_body sample_externals 1 7 9 world_with_token refresh_world
    refresh_request ⟨503, "not json"⟩ (by decide) (by rfl)

/-- C8, evaluated on the code.  Starting a refresh in a world whose provider holds the
token `old` frees the token but leaves the pointer in the field: the field is not `NULL`
afterwards (the expiration is 0).  A failure response (status 500) leaves the field as it
is, and the next call of `cloud_storage_onedrive_authenticate` frees the same pointer a
second time. -/
theorem authenticate_leaves_dangling_token :
    cloud_storage_onedrive_authenticate sample_externals 1 7 9 world_with_token
        = some (refresh_world, refresh_request) ∧
      refresh_world.provider_data.access_token = access_token_ptr.freed ∧
      refresh_world.provider_data.access_token ≠ access_token_ptr.NULL ∧
      refresh_world.provider_data.access_token_expiration_time = 0 ∧
      (rest_api_deliver sample_externals refresh_request ⟨500, ""⟩
        refresh_world).2.provider_data.access_token = access_token_ptr.freed ∧
      cloud_storage_onedrive_authenticate sample_externals 1 7 9
        (rest_api_deliver sample_externals refresh_request ⟨500, ""⟩ refresh_world).2 = none := by
  refine ⟨by decide, by decide, by decide, by decide, by decide, by decide⟩

/-- C9.  For every response delivered to the request of a refresh, whatever its status
and body, one handler of the request is selected and the delivery is one call of that
handler; it adds exactly one callback call, with the continuation data and the callback
data of the caller and with `success` true or false (true exactly for status 200), and
the operation state it leaves has `complete` set. -/
theorem refresh_exactly_one_callback (ext : externals)
    (continuation_data callback callback_data : Nat) (w w1 : world)
    (request : rest_api_request_t) (response : http_response_t)
    (hstart : cloud_storage_onedrive_authenticate ext continuation_data callback callback_data w
      = some (w1, request)) :
    ∃ handler success,
      rest_api_select_handler request response = some handler ∧
      rest_api_deliver ext request response w1 = handler.call ext response request.state w1 ∧
      success = decide (net_http_response_get_status response = 200) ∧
      (rest_api_deliver ext request response w1).2.callback_calls
        = w.callback_calls ++ [⟨callback, continuation_data, success, callback_data⟩] ∧
      (rest_api_deliver ext request response w1).1.complete = true := by
  obtain ⟨_, _, hsaved, hcalls, _, _, hstate⟩ :=
    authenticate_spec ext continuation_data callback callback_data w w1 request hstart
  have hsel := select_handler_of_authenticate ext continuation_data callback callback_data w w1
    request response hstart
  refine ⟨_, _, hsel, ?_, rfl, ?_⟩
  · unfold rest_api_deliver
    rw [hsel]
  · rw [deliver_of_authenticate ext continuation_data callback callback_data w w1 request
      response hstart]
    by_cases hstatus : net_http_response_get_status response = 200
    · rw [if_pos hstatus, success_handler_spec ext response request.state w1 hstatus]
      cases hp : (ext.string_to_json response.data).bind (parse_access_token_reponse ext) with
      | none => simp [hcalls, hstate, hstatus]
      | some r => simp [hcalls, hstate, hstatus]
    · rw [if_neg hstatus]
      simp [get_new_access_token_failure_handler, hcalls, hstate, hstatus]

theorem refresh_exactly_one_callback_witness :
    ∃ handler success,
      rest_api_select_handler refresh_request ⟨200, token_response_text⟩ = some handler ∧
      rest_api_deliver sample_externals refresh_request ⟨200, token_response_text⟩ refresh_world
        = handler.call sample_externals ⟨200, token_response_text⟩ refresh_request.state
            refresh_world ∧
      success = decide (net_http_response_get_status ⟨200, token_response_text⟩ = 200) ∧
      (rest_api_deliver sample_externals refresh_request ⟨200, token_response_text⟩
        refresh_world).2.callback_calls
        = world_with_token.callback_calls ++ [⟨7, 1, success, 9⟩] ∧
      (rest_api_deliver sample_externals refresh_request ⟨200, token_response_text⟩
        refresh_world).1.complete = true :=
  refresh_exactly_one_callback sample_externals 1 7 9 world_with_token refresh_world
    refresh_request ⟨200, token_response_text⟩ (by decide)

/-! ## The claim on `cloud_storage_onedrive_download_file` -/

/-- C10.  For every (non-null) file item and local path, the download returns true exactly
when the transport returned a response and its status is 200; it returns false when the
transport returned no response, and false for a response with any other status (other
2xx codes included). -/
theorem download_file_true_iff_status_200
    (onedrive_rest_execute_request : rest_request_t → Option http_response_t)
    (id name : String) (last_sync_time : Int) (item_type : cloud_storage_item_type_t)
    (file : cloud_storage_file_t) (children next : cloud_storage_item_t)
    (local_file : String) :
    (cloud_storage_onedrive_download_file onedrive_rest_execute_request
        (cloud_storage_item_t.item id name last_sync_time item_type file children next)
        local_file = some true ↔
      ∃ http_response,
        onedrive_rest_execute_request
            (rest_request_new (net_http_request_set_response_file
              (_create_http_request file.download_url) local_file)) = some http_response ∧
          net_http_response_get_status http_response = 200) ∧
    (onedrive_rest_execute_request
          (rest_request_new (net_http_request_set_response_file
            (_create_http_request file.download_url) local_file)) = none →
      cloud_storage_onedrive_download_file onedrive_rest_execute_request
        (cloud_storage_item_t.item id name last_sync_time item_type file children next)
        local_file = some false) ∧
    (∀ http_response,
      onedrive_rest_execute_request
          (rest_request_new (net_http_request_set_response_file
            (_create_http_request file.download_url) local_file)) = some http_response →
      net_http_response_get_status http_response ≠ 200 →
      cloud_storage_onedrive_download_file onedrive_rest_execute_request
        (cloud_storage_item_t.item id name last_sync_time item_type file children next)
        local_file = some false) := by
  unfold cloud_storage_onedrive_download_file
  cases hexec : onedrive_rest_execute_request
      (rest_request_new (net_http_request_set_response_file
        (_create_http_request file.download_url) local_file)) with
  | none => simp [hexec]
  | some http_response =>
    by_cases hstatus : net_http_response_get_status http_response = 200
    · simp [hexec, hstatus]
    · simp [hexec, hstatus]

theorem download_file_true_iff_status_200_witness :
    cloud_storage_onedrive_download_file (constant_transport (some ⟨204, ""⟩))
        (cloud_storage_item_t.item "f" "f.srm" 0 cloud_storage_item_type_t.CLOUD_STORAGE_FILE
          ⟨cloud_storage_hash_type_t.SHA1, none, some "https://example.org/f"⟩
          cloud_storage_item_t.NULL cloud_storage_item_t.NULL)
        "f.srm" = some false :=
  (download_file_true_iff_status_200 (constant_transport (some ⟨204, ""⟩)) "f" "f.srm" 0
    cloud_storage_item_type_t.CLOUD_STORAGE_FILE
    ⟨cloud_storage_hash_type_t.SHA1, none, some "https://example.org/f"⟩
    cloud_storage_item_t.NULL cloud_storage_item_t.NULL "f.srm").2.2 ⟨204, ""⟩ rfl (by decide)

end OneDrive

namespace Google

/-! ## Failed pages -/

/-- C11.  In every pass of the listing loop (whatever the folder holds by then), if the
transport returns no response for the page, or a response whose status is not 200, the
loop is left in that very pass, so no further request is made, and the folder is exactly
as it was before the page was requested.  In particular a call whose first page fails
returns the folder unchanged. -/
theorem list_files_failed_page_links_nothing (ext : externals) (fuel iterations : Nat)
    (s : list_files_state)
    (hfail :
      ext.google_rest_execute_request
          (rest_request_new (_create_http_request s.folder s.next_value)) = none ∨
      ∃ http_response,
        ext.google_rest_execute_request
            (rest_request_new (_create_http_request s.folder s.next_value))
          = some http_response ∧
        net_http_response_get_status http_response ≠ 200) :
    list_files_loop ext fuel (iterations + 1) s =
        some { folder := s.folder, last_child := s.last_child,
               next_page_token := s.next_value, next_value := none } ∧
      (s.next_value = none →
        cloud_storage_google_list_files ext fuel (iterations + 1) s.folder = some s.folder) := by
  have hpage : _get_list_files_next_page ext fuel s.folder s.next_value none
      = some (NULL, none) := by
    unfold _get_list_files_next_page
    rcases hfail with h | ⟨http_response, h, hstatus⟩
    · simp [h]
    · simp [h, hstatus]
  have hloop : ∀ s1 : list_files_state, s1.folder = s.folder → s1.next_value = s.next_value →
      list_files_loop ext fuel (iterations + 1) s1 =
        some { folder := s1.folder, last_child := s1.last_child,
               next_page_token := s1.next_value, next_value := none } := by
    intro s1 h1 h2
    rw [list_files_loop_single_pass, h1, h2, hpage]
    simp [link_new_items, h1]
  refine ⟨hloop s rfl rfl, ?_⟩
  intro hnone
  unfold cloud_storage_google_list_files
  split
  · rfl
  · simp only []
    rw [hloop { folder := s.folder, last_child := s.folder.folder_children.scan_last,
                next_page_token := none, next_value := none } rfl hnone.symm]

theorem list_files_failed_page_links_nothing_witness :
    list_files_loop unreachable_remote 100 1
        { folder := sample_folder (sample_file "z" "z.srm" NULL), last_child := some 0,
          next_page_token := none, next_value := none } =
        some { folder := sample_folder (sample_file "z" "z.srm" NULL), last_child := some 0,
               next_page_token := none, next_value := none } ∧
      ((none : Option String) = none →
        cloud_storage_google_list_files unreachable_remote 100 1
          (sample_folder (sample_file "z" "z.srm" NULL))
          = some (sample_folder (sample_file "z" "z.srm" NULL))) :=
  list_files_failed_page_links_nothing unreachable_remote 100 0
    { folder := sample_folder (sample_file "z" "z.srm" NULL), last_child := some 0,
      next_page_token := none, next_value := none }
    (Or.inl (by decide))

end Google

namespace OneDrive

/-! ## The refresh request -/

/-- C13.  The body built by `refresh_token_request_body` is exactly
`client_id=` + urlencode(client id) + `&redirect_uri=` + urlencode(native client URI) +
`&refresh_token=` + urlencode(refresh token) + `&grant_type=refresh_token`, and the
request that `cloud_storage_onedrive_authenticate` submits carries this body, the method
`POST`, the URL of the token endpoint and the single header
`Content-Type: application/x-www-form-urlencoded`. -/
theorem refresh_request_body_and_method (ext : externals)
    (continuation_data callback callback_data : Nat) (w w1 : world)
    (request : rest_api_request_t)
    (hstart : cloud_storage_onedrive_authenticate ext continuation_data callback callback_data w
      = some (w1, request)) :
    refresh_token_request_body ext =
        "client_id=" ++ ext.net_http_urlencode ext.settings.cloud_storage_onedrive_client_id
          ++ "&redirect_uri="
          ++ ext.net_http_urlencode "https://login.microsoftonline.com/common/oauth2/nativeclient"
          ++ "&refresh_token="
          ++ ext.net_http_urlencode ext.settings.cloud_storage_onedrive_refresh_token
          ++ "&grant_type=refresh_token" ∧
      request.http_request.body = some (refresh_token_request_body ext) ∧
      request.http_request.method = "POST" ∧
      request.http_request.url = "https://login.microsoftonline.com/common/oauth2/v2.0/token" ∧
      request.http_request.headers
        = [("Content-Type", "application/x-www-form-urlencoded")] ∧
      request.http_request.url_params = [] := by
  refine ⟨?_, ?_⟩
  · simp only [refresh_token_request_body, cloud_storage_join_strings, String.join,
      List.foldl, CLIENT_ID_PARAM_NAME, REDIRECT_URI_NAME, REFRESH_TOKEN_PARAM_NAME,
      GRANT_TYPE_PARAM_NAME, GRANT_TYPE_PARAM_VALUE]
    apply String.ext
    simp only [String.data_append, List.append_assoc]
    rfl
  · unfold cloud_storage_onedrive_authenticate at hstart
    split at hstart
    · exact absurd hstart (by simp)
    · simp only [Option.some.injEq, Prod.mk.injEq] at hstart
      obtain ⟨_, hr⟩ := hstart
      subst hr
      simp [rest_api_request_new, rest_api_request_set_response_handler,
        rest_api_request_set_default_response_handler, net_http_request_set_body,
        net_http_request_set_log_request_body, net_http_request_set_log_response_body,
        net_http_request_set_header, net_http_request_set_method, net_http_request_set_url,
        net_http_request_new, REFRESH_TOKEN_URL]

theorem refresh_request_body_and_method_witness :
    refresh_token_request_body sample_externals =
        "client_id="
          ++ sample_externals.net_http_urlencode
              sample_externals.settings.cloud_storage_onedrive_client_id
          ++ "&redirect_uri="
          ++ sample_externals.net_http_urlencode
              "https://login.microsoftonline.com/common/oauth2/nativeclient"
          ++ "&refresh_token="
          ++ sample_externals.net_http_urlencode
              sample_externals.settings.cloud_storage_onedrive_refresh_token
          ++ "&grant_type=refresh_token" ∧
      refresh_request.http_request.body = some (refresh_token_request_body sample_externals) ∧
      refresh_request.http_request.method = "POST" ∧
      refresh_request.http_request.url
        = "https://login.microsoftonline.com/common/oauth2/v2.0/token" ∧
      refresh_request.http_request.headers
        = [("Content-Type", "application/x-www-form-urlencoded")] ∧
      refresh_request.http_request.url_params = [] :=
  refresh_request_body_and_method sample_externals 1 7 9 world_with_token refresh_world
    refresh_request (by decide)

end OneDrive

namespace Google

/-! ## Termination of the scan -/

/-- Once the reader has nothing left to deliver but its final answer, and that answer is
neither the opening of an object nor the end of an array, the `files` loop is never
left. -/
theorem files_loop_stuck (ext : externals) (fuel : Nat) (s : process_state)
    (hpending : s.json.pending = [])
    (hobject : s.json.final ≠ rjson_type.RJSON_OBJECT)
    (harray_end : s.json.final ≠ rjson_type.RJSON_ARRAY_END) :
    files_loop ext fuel s = none := by
  induction fuel generalizing s with
  | zero => rfl
  | succ n ih =>
    have hnext : rjson_next s.json =
        (s.json.final,
          { s.json with current := { s.json.current with type := s.json.final } }) := by
      simp [rjson_next, hpending]
    unfold files_loop
    rw [hnext]
    cases hf : s.json.final <;> simp only [hf, ne_eq, not_true_eq_false] at hobject harray_end ⊢ <;>
      exact ih _ (by simpa using hpending) (by simp [hf]) (by simp [hf])

/-- C15, evaluated on the code.  For the response that breaks off inside the `files`
array (status 200; the reader reports an error on every call after the opening of the
array), `_process_response` reaches neither `cleanup` nor `success` within any number of
reader steps, and so `cloud_storage_google_list_files` never returns either. -/
theorem process_response_truncated_files_never_returns :
    (∀ fuel : Nat,
        _process_response truncated_listing fuel ⟨200, truncated_listing_text⟩ none = none) ∧
      (∀ fuel iterations : Nat,
        cloud_storage_google_list_files truncated_listing fuel iterations (sample_folder NULL)
          = none) := by
  have hscan : ∀ fuel : Nat,
      _process_response truncated_listing fuel ⟨200, truncated_listing_text⟩ none = none := by
    intro fuel
    rcases fuel with _ | _ | _ | n
    · rfl
    · rfl
    · rfl
    · have hstuck := files_loop_stuck truncated_listing n
        { json :=
            { pending := [], current := ⟨rjson_type.RJSON_ARRAY, "", 0⟩,
              final := rjson_type.RJSON_ERROR },
          in_object := true, key_name := some "files", received_next_page_token := none,
          first_file := NULL, current_file := none } rfl (by decide) (by decide)
      have hopen : ∀ data, truncated_listing.rjson_open_buffer data =
          { pending :=
              [⟨rjson_type.RJSON_OBJECT, "", 0⟩, ⟨rjson_type.RJSON_STRING, "files", 1⟩,
               ⟨rjson_type.RJSON_ARRAY, "", 0⟩],
            current := ⟨rjson_type.RJSON_DONE, "", 0⟩,
            final := rjson_type.RJSON_ERROR } := fun _ => rfl
      simp [_process_response, response_loop, rjson_next, hopen,
        rjson_get_context_count, rjson_get_string, hstuck]
  refine ⟨hscan, ?_⟩
  intro fuel iterations
  cases iterations with
  | zero => rfl
  | succ k =>
    rw [list_files_first_page truncated_listing fuel k (sample_folder NULL)
      ⟨200, truncated_listing_text⟩ (by decide) (by decide) (by decide), hscan]
    rfl

end Google

namespace Google

/-! ## The scan of a listing response, step by step -/

theorem rjson_next_cons (json : rjson_t) (tok : rjson_token) (rest : List rjson_token)
    (h : json.pending = tok :: rest) :
    rjson_next json = (tok.type, { json with pending := rest, current := tok }) := by
  simp [rjson_next, h]

theorem response_loop_key (ext : externals) (fuel : Nat) (s : process_state) (key : String)
    (count : Nat) (rest : List rjson_token) (hobject : s.in_object = true)
    (hpending : s.json.pending = ⟨rjson_type.RJSON_STRING, key, count⟩ :: rest)
    (hcount : count % 2 = 1) :
    response_loop ext (fuel + 1) s =
      response_loop ext fuel
        { s with
          json := { s.json with pending := rest,
                                current := ⟨rjson_type.RJSON_STRING, key, count⟩ },
          key_name := some key } := by
  rw [response_loop, rjson_next_cons s.json _ rest hpending]
  simp [hobject, rjson_get_context_count, rjson_get_string, hcount]

theorem response_loop_string_value (ext : externals) (fuel : Nat) (s : process_state)
    (value : String) (count : Nat) (rest : List rjson_token) (hobject : s.in_object = true)
    (hpending : s.json.pending = ⟨rjson_type.RJSON_STRING, value, count⟩ :: rest)
    (hcount : count % 2 = 0) :
    response_loop ext (fuel + 1) s =
      response_loop ext fuel
        { s with
          json := { s.json with pending := rest,
                                current := ⟨rjson_type.RJSON_STRING, value, count⟩ },
          received_next_page_token :=
            if s.key_name = some "nextPageToken" then some value
            else s.received_next_page_token } := by
  rw [response_loop, rjson_next_cons s.json _ rest hpending]
  by_cases hkey : s.key_name = some "nextPageToken"
  · simp [hobject, rjson_get_context_count, rjson_get_string, hcount, hkey]
  · simp [hobject, rjson_get_context_count, rjson_get_string, hcount, hkey]

theorem response_loop_plain_value (ext : externals) (fuel : Nat) (s : process_state)
    (type : plain_type) (text : String) (count : Nat) (rest : List rjson_token)
    (hpending : s.json.pending = ⟨type.to_rjson_type, text, count⟩ :: rest) :
    response_loop ext (fuel + 1) s =
      response_loop ext fuel
        { s with
          json := { s.json with pending := rest,
                                current := ⟨type.to_rjson_type, text, count⟩ } } := by
  rw [response_loop, rjson_next_cons s.json _ rest hpending]
  cases type <;> simp [plain_type.to_rjson_type]

theorem response_loop_files_array (ext : externals) (fuel : Nat) (s : process_state)
    (count : Nat) (rest : List rjson_token) (hobject : s.in_object = true)
    (hkey : s.key_name = some "files")
    (hpending : s.json.pending = ⟨rjson_type.RJSON_ARRAY, "", count⟩ :: rest) :
    response_loop ext (fuel + 1) s =
      (files_loop ext fuel
        { s with
          json := { s.json with pending := rest,
                                current := ⟨rjson_type.RJSON_ARRAY, "", count⟩ } }).bind
        (fun s1 => response_loop ext fuel s1) := by
  rw [response_loop, rjson_next_cons s.json _ rest hpending]
  simp only [hobject, hkey, and_self, if_true]
  split
  · rename_i h
    rw [h]
    rfl
  · rename_i s1 h
    rw [h]
    rfl

theorem response_loop_object_end (ext : externals) (fuel : Nat) (s : process_state)
    (tok : rjson_token) (rest : List rjson_token)
    (htype : tok.type = rjson_type.RJSON_OBJECT_END)
    (hpending : s.json.pending = tok :: rest) :
    response_loop ext (fuel + 1) s =
      some (process_exit.success,
        { s with json := { s.json with pending := rest, current := tok } }) := by
  rw [response_loop, rjson_next_cons s.json _ rest hpending, htype]

end Google

namespace Google

/-! ## Linking parsed entries -/

/-- A non-null item without siblings is its own sibling sequence. -/
theorem siblings_of_single (q : cloud_storage_item_t) (hq : q ≠ NULL)
    (hsingle : q.unlinked = q) : q.siblings = [q] ∧ q.scan_last = some 0 := by
  cases q with
  | NULL => exact absurd rfl hq
  | item i n t ty f c nx =>
    simp only [unlinked, item.injEq, true_and] at hsingle
    subst hsingle
    simp [siblings, scan_last]

/-- Writing a single node behind the last node of a chain moves the end of the chain one
position on. -/
theorem scan_last_set_next_at (head q : cloud_storage_item_t) (k : Nat)
    (h : head.scan_last = some k) (hq : q ≠ NULL) (hsingle : q.unlinked = q) :
    (head.set_next_at k q).scan_last = some (k + 1) := by
  induction head generalizing k with
  | NULL => simp [scan_last] at h
  | item i n t ty f c nx _ ihn =>
    by_cases hnx : nx = NULL
    · subst hnx
      simp only [scan_last, if_true, Option.some.injEq] at h
      subst h
      simp [set_next_at, scan_last, hq, (siblings_of_single q hq hsingle).2]
    · simp only [scan_last, hnx, if_false, Option.map_eq_some'] at h
      obtain ⟨k2, hk2, rfl⟩ := h
      have ih := ihn k2 hk2
      have hne : nx.set_next_at k2 q ≠ NULL := by
        cases nx with
        | NULL => exact absurd rfl hnx
        | item i2 n2 t2 ty2 f2 c2 nx2 => cases k2 <;> simp [set_next_at]
      simp [set_next_at, scan_last, hne, ih]

/-- The statement that links a parsed entry touches only `first_file` and
`current_file`. -/
theorem link_new_file_fields (s : process_state) (new_file : cloud_storage_item_t) :
    (link_new_file s new_file).json = s.json ∧
      (link_new_file s new_file).in_object = s.in_object ∧
      (link_new_file s new_file).key_name = s.key_name ∧
      (link_new_file s new_file).received_next_page_token = s.received_next_page_token := by
  unfold link_new_file
  split
  · split <;> simp
  · simp

/-- Linking a parsed entry (a single node, or `NULL` for a rejected entry) while
`current_file` is the last node of the chain: an accepted entry becomes the new last
node, a rejected one changes nothing. -/
theorem link_new_file_chain (s : process_state) (new_file : cloud_storage_item_t)
    (hsingle : new_file.unlinked = new_file)
    (hlast : s.current_file = s.first_file.scan_last) :
    (link_new_file s new_file).current_file = (link_new_file s new_file).first_file.scan_last ∧
      (link_new_file s new_file).first_file.siblings
        = s.first_file.siblings ++ [new_file].filter (fun x => x ≠ NULL) := by
  by_cases hnew : new_file = NULL
  · subst hnew
    simp [link_new_file, hlast]
  · obtain ⟨hsib, hscan⟩ := siblings_of_single new_file hnew hsingle
    cases hk : s.first_file.scan_last with
    | none =>
      have hnull : s.first_file = NULL := (scan_last_eq_none _).mp hk
      simp [link_new_file, hnew, hlast, hscan, hsib, hnull, siblings, scan_last]
    | some k =>
      simp [link_new_file, hnew, hlast, hk, hsib,
        scan_last_set_next_at s.first_file new_file k hk hnew hsingle,
        siblings_set_next_at_scan_last s.first_file new_file k hk]

end Google

namespace Google

/-! ## The scan of a well-formed listing -/

/-- The `files` loop over the entries of the array, with enough fuel for the tokens at
hand: it is left at the end of the array, with the reader right behind it; the other
locals are untouched, and the accepted entries have been appended to the chain in array
order, when every parsed entry is a single node and `current_file` was the last node. -/
theorem files_loop_entries (ext : externals)
    (item_of : List rjson_token → cloud_storage_item_t) (end_token : rjson_token)
    (rest : List rjson_token) (hend : end_token.type = rjson_type.RJSON_ARRAY_END)
    (entries : List (List rjson_token)) :
    ∀ (fuel : Nat) (s : process_state),
      (∀ entry ∈ entries, parser_reads ext item_of entry) →
      s.json.pending = entries_tokens entries ++ end_token :: rest →
      s.json.pending.length < fuel →
      ∃ s1, files_loop ext fuel s = some s1 ∧ s1.json.pending = rest ∧
        s1.in_object = s.in_object ∧ s1.key_name = s.key_name ∧
        s1.received_next_page_token = s.received_next_page_token ∧
        ((∀ entry ∈ entries, (item_of entry).unlinked = item_of entry) →
          s.current_file = s.first_file.scan_last →
          s1.current_file = s1.first_file.scan_last ∧
          s1.first_file.siblings
            = s.first_file.siblings ++ (entries.map item_of).filter (fun x => x ≠ NULL)) := by
  induction entries with
  | nil =>
    intro fuel s _ hpending hfuel
    obtain ⟨f, rfl⟩ : ∃ f, fuel = f + 1 := ⟨fuel - 1, by omega⟩
    simp only [entries_tokens, List.map_nil, List.flatten_nil, List.nil_append] at hpending
    refine ⟨{ s with json := { s.json with pending := rest, current := end_token } }, ?_, rfl,
      rfl, rfl, rfl, ?_⟩
    · rw [files_loop, rjson_next_cons s.json _ rest hpending, hend]
    · intro _ hlast
      exact ⟨hlast, by simp⟩
  | cons entry entries ih =>
    intro fuel s hparser hpending hfuel
    obtain ⟨f, rfl⟩ : ∃ f, fuel = f + 1 := ⟨fuel - 1, by omega⟩
    have htokens : s.json.pending = ⟨rjson_type.RJSON_OBJECT, "", 0⟩
        :: (entry ++ (entries_tokens entries ++ end_token :: rest)) := by
      rw [hpending]
      simp [entries_tokens]
    have hread := hparser entry (List.mem_cons_self _ _)
      { s.json with pending := entry ++ (entries_tokens entries ++ end_token :: rest),
                    current := ⟨rjson_type.RJSON_OBJECT, "", 0⟩ }
      (entries_tokens entries ++ end_token :: rest) rfl
    obtain ⟨hitem, hleft⟩ := hread
    have hfields := link_new_file_fields
      { s with json := (ext.cloud_storage_google_parse_file_from_json
          { s.json with pending := entry ++ (entries_tokens entries ++ end_token :: rest),
                        current := ⟨rjson_type.RJSON_OBJECT, "", 0⟩ }).2 }
      (ext.cloud_storage_google_parse_file_from_json
          { s.json with pending := entry ++ (entries_tokens entries ++ end_token :: rest),
                        current := ⟨rjson_type.RJSON_OBJECT, "", 0⟩ }).1
    obtain ⟨hj, ho, hk, hr⟩ := hfields
    have hlen : (entries_tokens entries ++ end_token :: rest).length < f := by
      have := congrArg List.length htokens
      simp only [List.length_cons, List.length_append] at this hfuel ⊢
      omega
    obtain ⟨s1, hrun, hp1, ho1, hk1, hr1, hchain⟩ := ih f
      (link_new_file
        { s with json := (ext.cloud_storage_google_parse_file_from_json
            { s.json with pending := entry ++ (entries_tokens entries ++ end_token :: rest),
                          current := ⟨rjson_type.RJSON_OBJECT, "", 0⟩ }).2 }
        (ext.cloud_storage_google_parse_file_from_json
            { s.json with pending := entry ++ (entries_tokens entries ++ end_token :: rest),
                          current := ⟨rjson_type.RJSON_OBJECT, "", 0⟩ }).1)
      (fun e he => hparser e (List.mem_cons_of_mem _ he))
      (by rw [hj]; exact hleft)
      (by rw [hj]; simpa [hleft] using hlen)
    refine ⟨s1, ?_, hp1, by rw [ho1, ho], by rw [hk1, hk], by rw [hr1, hr], ?_⟩
    · rw [files_loop, rjson_next_cons s.json _ _ htokens]
      exact hrun
    · intro hsingle hlast
      have hlink := link_new_file_chain
        { s with json := (ext.cloud_storage_google_parse_file_from_json
            { s.json with pending := entry ++ (entries_tokens entries ++ end_token :: rest),
                          current := ⟨rjson_type.RJSON_OBJECT, "", 0⟩ }).2 }
        (ext.cloud_storage_google_parse_file_from_json
            { s.json with pending := entry ++ (entries_tokens entries ++ end_token :: rest),
                          current := ⟨rjson_type.RJSON_OBJECT, "", 0⟩ }).1
        (by rw [hitem]; exact hsingle entry (List.mem_cons_self _ _)) hlast
      obtain ⟨hc1, hs1⟩ := hchain (fun e he => hsingle e (List.mem_cons_of_mem _ he)) hlink.1
      refine ⟨hc1, ?_⟩
      rw [hs1, hlink.2, hitem]
      by_cases hnull : item_of entry = NULL <;> simp [List.filter_cons, hnull]

end Google

namespace Google

/-- The main loop over the members of a well-formed top-level object, from behind the
opening of the object, with enough fuel for the tokens at hand: it is left through
`success` at the end of the object; the token it holds then is the string value of the
last member `nextPageToken` (the one held before when there is none), and the accepted
entries of the `files` members have been appended to the chain in order, when every
parsed entry is a single node and `current_file` was the last node. -/
theorem response_loop_members (ext : externals)
    (item_of : List rjson_token → cloud_storage_item_t) (end_token : rjson_token)
    (rest : List rjson_token) (hend : end_token.type = rjson_type.RJSON_OBJECT_END)
    (members : List listing_member) :
    ∀ (count fuel : Nat) (s : process_state),
      count % 2 = 0 → s.in_object = true →
      (∀ entry ∈ listing_entries members, parser_reads ext item_of entry) →
      s.json.pending = members_tokens count members ++ end_token :: rest →
      s.json.pending.length < fuel →
      ∃ s1, response_loop ext fuel s = some (process_exit.success, s1) ∧
        s1.received_next_page_token = listing_token members s.received_next_page_token ∧
        ((∀ entry ∈ listing_entries members, (item_of entry).unlinked = item_of entry) →
          s.current_file = s.first_file.scan_last →
          s1.first_file.siblings
            = s.first_file.siblings
              ++ ((listing_entries members).map item_of).filter (fun x => x ≠ NULL)) := by
  induction members with
  | nil =>
    intro count fuel s _ _ _ hpending hfuel
    obtain ⟨f, rfl⟩ : ∃ f, fuel = f + 1 := ⟨fuel - 1, by omega⟩
    simp only [members_tokens, List.nil_append] at hpending
    refine ⟨_, response_loop_object_end ext f s end_token rest hend hpending, rfl, ?_⟩
    intro _ _
    simp [listing_entries]
  | cons member members ih =>
    intro count fuel s hcount hobject hparser hpending hfuel
    have hodd : (count + 1) % 2 = 1 := by omega
    have heven : (count + 2) % 2 = 0 := by omega
    cases member with
    | string key value =>
      simp only [members_tokens, List.cons_append] at hpending
      have hlen := congrArg List.length hpending
      simp only [List.length_cons] at hlen
      obtain ⟨f, rfl⟩ : ∃ f, fuel = f + 2 := ⟨fuel - 2, by omega⟩
      rw [response_loop_key ext (f + 1) s key (count + 1) _ hobject hpending hodd]
      rw [response_loop_string_value ext f _ value (count + 2)
        (members_tokens (count + 2) members ++ end_token :: rest) (by exact hobject) rfl heven]
      obtain ⟨s1, hrun, htoken, hchain⟩ := ih (count + 2) f
        { json :=
            { pending := members_tokens (count + 2) members ++ end_token :: rest,
              current := ⟨rjson_type.RJSON_STRING, value, count + 2⟩,
              final := s.json.final },
          in_object := s.in_object, key_name := some key,
          received_next_page_token :=
            if (some key : Option String) = some "nextPageToken" then some value
            else s.received_next_page_token,
          first_file := s.first_file, current_file := s.current_file }
        heven hobject
        (fun e he => hparser e (by simpa [listing_entries] using he)) rfl
        (by
          show (members_tokens (count + 2) members ++ end_token :: rest).length < f
          omega)
      refine ⟨s1, hrun, ?_, ?_⟩
      · rw [htoken]
        simp [listing_token]
      · intro hsingle hlast
        simpa [listing_entries] using
          hchain (fun e he => hsingle e (by simpa [listing_entries] using he)) hlast
    | plain key type text =>
      simp only [members_tokens, List.cons_append] at hpending
      have hlen := congrArg List.length hpending
      simp only [List.length_cons] at hlen
      obtain ⟨f, rfl⟩ : ∃ f, fuel = f + 2 := ⟨fuel - 2, by omega⟩
      rw [response_loop_key ext (f + 1) s key (count + 1) _ hobject hpending hodd]
      rw [response_loop_plain_value ext f _ type text (count + 2)
        (members_tokens (count + 2) members ++ end_token :: rest) rfl]
      obtain ⟨s1, hrun, htoken, hchain⟩ := ih (count + 2) f
        { json :=
            { pending := members_tokens (count + 2) members ++ end_token :: rest,
              current := ⟨type.to_rjson_type, text, count + 2⟩,
              final := s.json.final },
          in_object := s.in_object, key_name := some key,
          received_next_page_token := s.received_next_page_token,
          first_file := s.first_file, current_file := s.current_file }
        heven hobject
        (fun e he => hparser e (by simpa [listing_entries] using he)) rfl
        (by
          show (members_tokens (count + 2) members ++ end_token :: rest).length < f
          omega)
      refine ⟨s1, hrun, ?_, ?_⟩
      · rw [htoken]
        simp [listing_token]
      · intro hsingle hlast
        simpa [listing_entries] using
          hchain (fun e he => hsingle e (by simpa [listing_entries] using he)) hlast
    | files entries =>
      simp only [members_tokens, List.cons_append, List.append_assoc] at hpending
      have hlen := congrArg List.length hpending
      simp only [List.length_cons, List.length_append] at hlen
      obtain ⟨f, rfl⟩ : ∃ f, fuel = f + 2 := ⟨fuel - 2, by omega⟩
      rw [response_loop_key ext (f + 1) s "files" (count + 1) _ hobject hpending hodd]
      rw [response_loop_files_array ext f _ 0
        (entries_tokens entries
          ++ ⟨rjson_type.RJSON_ARRAY_END, "", count + 2⟩
            :: (members_tokens (count + 2) members ++ end_token :: rest))
        (by exact hobject) rfl rfl]
      obtain ⟨s2, hfiles, hp2, ho2, _, hr2, hchain2⟩ :=
        files_loop_entries ext item_of ⟨rjson_type.RJSON_ARRAY_END, "", count + 2⟩
          (members_tokens (count + 2) members ++ end_token :: rest) rfl entries f
          { s with
            json := { s.json with
              pending := entries_tokens entries
                ++ ⟨rjson_type.RJSON_ARRAY_END, "", count + 2⟩
                  :: (members_tokens (count + 2) members ++ end_token :: rest),
              current := ⟨rjson_type.RJSON_ARRAY, "", 0⟩ },
            key_name := some "files" }
          (fun e he => hparser e (by simp [listing_entries, he]))
          rfl
          (by simp only [List.length_append, List.length_cons]; omega)
      rw [hfiles, Option.bind]
      obtain ⟨s1, hrun, htoken, hchain⟩ := ih (count + 2) f s2 heven (by rw [ho2]; exact hobject)
        (fun e he => hparser e (by simp [listing_entries, he])) hp2
        (by rw [hp2]; simp only [List.length_append, List.length_cons] at hlen ⊢; omega)
      refine ⟨s1, hrun, ?_, ?_⟩
      · rw [htoken, hr2]
        simp [listing_token]
      · intro hsingle hlast
        obtain ⟨hc2, hs2⟩ := hchain2 (fun e he => hsingle e (by simp [listing_entries, he])) hlast
        rw [hchain (fun e he => hsingle e (by simp [listing_entries, he])) hc2, hs2]
        simp [listing_entries]

end Google

namespace Google

theorem response_loop_object_open (ext : externals) (fuel : Nat) (s : process_state)
    (count : Nat) (rest : List rjson_token) (hobject : s.in_object = false)
    (hpending : s.json.pending = ⟨rjson_type.RJSON_OBJECT, "", count⟩ :: rest) :
    response_loop ext (fuel + 1) s =
      response_loop ext fuel
        { s with
          json := { s.json with pending := rest,
                                current := ⟨rjson_type.RJSON_OBJECT, "", count⟩ },
          in_object := true } := by
  rw [response_loop, rjson_next_cons s.json _ rest hpending]
  simp [hobject]

/-- What `_process_response` returns for a well-formed listing response, given enough fuel
for its tokens: the token is the string value of the last member `nextPageToken` (the
value found in `*next_page_token` when there is none), and the items are the accepted
entries of the `files` members in order, when every parsed entry is a single node. -/
theorem process_response_listing (ext : externals)
    (item_of : List rjson_token → cloud_storage_item_t) (fuel : Nat)
    (http_response : http_response_t) (next_page_token : Option String)
    (members : List listing_member)
    (hreader : (ext.rjson_open_buffer (net_http_response_get_data http_response false)).pending
      = listing_tokens members)
    (hparser : ∀ entry ∈ listing_entries members, parser_reads ext item_of entry)
    (hfuel : (listing_tokens members).length < fuel) :
    ∃ items,
      _process_response ext fuel http_response next_page_token =
        some (items,
          match listing_token members none with
          | some tok => some tok
          | none => next_page_token) ∧
      ((∀ entry ∈ listing_entries members, (item_of entry).unlinked = item_of entry) →
        items.siblings = ((listing_entries members).map item_of).filter (fun x => x ≠ NULL)) := by
  obtain ⟨f, rfl⟩ : ∃ f, fuel = f + 1 := ⟨fuel - 1, by omega⟩
  have hlen : (members_tokens 0 members
      ++ [(⟨rjson_type.RJSON_OBJECT_END, "", 2 * members.length⟩ : rjson_token)]).length < f := by
    simp only [listing_tokens, List.length_cons] at hfuel
    omega
  obtain ⟨s1, hrun, htoken, hchain⟩ := response_loop_members ext item_of
    ⟨rjson_type.RJSON_OBJECT_END, "", 2 * members.length⟩ [] rfl members 0 f
    { json :=
        { pending := members_tokens 0 members
            ++ [(⟨rjson_type.RJSON_OBJECT_END, "", 2 * members.length⟩ : rjson_token)],
          current := ⟨rjson_type.RJSON_OBJECT, "", 0⟩,
          final := (ext.rjson_open_buffer
            (net_http_response_get_data http_response false)).final },
      in_object := true, key_name := none, received_next_page_token := none,
      first_file := NULL, current_file := none }
    rfl rfl hparser rfl hlen
  refine ⟨s1.first_file, ?_, ?_⟩
  · unfold _process_response
    simp only []
    rw [response_loop_object_open ext f _ 0
      (members_tokens 0 members
        ++ [(⟨rjson_type.RJSON_OBJECT_END, "", 2 * members.length⟩ : rjson_token)])
      rfl (by rw [hreader]; rfl)]
    rw [hrun]
    simp only [htoken]
    cases listing_token members none <;> rfl
  · intro hsingle
    have := hchain hsingle rfl
    simpa [siblings] using this

/-- The token that `listing_token` gives comes from a string member `nextPageToken`, or
is the one it started from. -/
theorem listing_token_some (members : List listing_member) :
    ∀ (acc : Option String) (tok : String), listing_token members acc = some tok →
      listing_member.string "nextPageToken" tok ∈ members ∨ acc = some tok := by
  induction members with
  | nil =>
    intro acc tok h
    exact Or.inr h
  | cons member members ih =>
    intro acc tok h
    cases member with
    | string key value =>
      simp only [listing_token] at h
      rcases ih _ tok h with hmem | hacc
      · exact Or.inl (List.mem_cons_of_mem _ hmem)
      · by_cases hkey : key = "nextPageToken"
        · simp only [hkey, if_true, Option.some.injEq] at hacc
          subst hkey hacc
          exact Or.inl (List.mem_cons_self _ _)
        · simp only [hkey, if_false] at hacc
          exact Or.inr hacc
    | plain key type text =>
      simp only [listing_token] at h
      rcases ih _ tok h with hmem | hacc
      · exact Or.inl (List.mem_cons_of_mem _ hmem)
      · exact Or.inr hacc
    | files entries =>
      simp only [listing_token] at h
      rcases ih _ tok h with hmem | hacc
      · exact Or.inl (List.mem_cons_of_mem _ hmem)
      · exact Or.inr hacc

/-- A token held is never lost, and a string member `nextPageToken` yields one. -/
theorem listing_token_is_some (members : List listing_member) :
    ∀ acc : Option String,
      (acc.isSome = true ∨ ∃ value, listing_member.string "nextPageToken" value ∈ members) →
      (listing_token members acc).isSome = true := by
  induction members with
  | nil =>
    intro acc h
    rcases h with h | ⟨value, hmem⟩
    · exact h
    · simp at hmem
  | cons member members ih =>
    intro acc h
    cases member with
    | string key value =>
      simp only [listing_token]
      apply ih
      rcases h with h | ⟨v, hmem⟩
      · left
        by_cases hkey : key = "nextPageToken" <;> simp [hkey, h]
      · rcases List.mem_cons.mp hmem with heq | hmem
        · left
          simp only [listing_member.string.injEq] at heq
          simp [← heq.1]
        · exact Or.inr ⟨v, hmem⟩
    | plain key type text =>
      simp only [listing_token]
      apply ih
      rcases h with h | ⟨v, hmem⟩
      · exact Or.inl h
      · rcases List.mem_cons.mp hmem with heq | hmem
        · simp at heq
        · exact Or.inr ⟨v, hmem⟩
    | files entries =>
      simp only [listing_token]
      apply ih
      rcases h with h | ⟨v, hmem⟩
      · exact Or.inl h
      · rcases List.mem_cons.mp hmem with heq | hmem
        · simp at heq
        · exact Or.inr ⟨v, hmem⟩

end Google

namespace Google

/-! ## Responses that end the scan at `cleanup` -/

/-- One reader step on a reader that has no `RJSON_ARRAY` among its next `fuel + 1`
answers: the answer is not `RJSON_ARRAY`, and none of the next `fuel` ones is. -/
theorem rjson_next_without_array (json : rjson_t) (fuel : Nat)
    (hpending : ∀ tok ∈ json.pending.take (fuel + 1), tok.type ≠ rjson_type.RJSON_ARRAY)
    (hfinal : json.final ≠ rjson_type.RJSON_ARRAY) :
    (rjson_next json).1 ≠ rjson_type.RJSON_ARRAY ∧
      (∀ tok ∈ (rjson_next json).2.pending.take fuel, tok.type ≠ rjson_type.RJSON_ARRAY) ∧
      (rjson_next json).2.final ≠ rjson_type.RJSON_ARRAY := by
  cases hp : json.pending with
  | nil => simp [rjson_next, hp, hfinal]
  | cons tok rest =>
    rw [hp] at hpending
    simp only [List.take_succ_cons, List.mem_cons, forall_eq_or_imp] at hpending
    simp [rjson_next, hp, hfinal, hpending.1]
    exact hpending.2

/-- As long as the reader delivers no `RJSON_ARRAY`, the main loop links nothing: at
whichever exit it is left, `first_file` is what it was. -/
theorem response_loop_without_array (ext : externals) :
    ∀ (fuel : Nat) (s s1 : process_state) (exit : process_exit),
      (∀ tok ∈ s.json.pending.take fuel, tok.type ≠ rjson_type.RJSON_ARRAY) →
      s.json.final ≠ rjson_type.RJSON_ARRAY →
      response_loop ext fuel s = some (exit, s1) →
      s1.first_file = s.first_file := by
  intro fuel
  induction fuel with
  | zero =>
    intro s s1 exit _ _ h
    simp [response_loop] at h
  | succ n ih =>
    intro s s1 exit hpending hfinal h
    obtain ⟨htype, hnext, hfinal1⟩ := rjson_next_without_array s.json n hpending hfinal
    rw [response_loop] at h
    rcases hstep : rjson_next s.json with ⟨type, json⟩
    rw [hstep] at h htype hnext hfinal1
    simp only at htype hnext hfinal1
    cases type <;> simp only [] at h
    all_goals try exact absurd rfl htype
    all_goals
      (repeat' split at h) <;>
      first
      | (simp only [Option.some.injEq, Prod.mk.injEq] at h
         obtain ⟨_, rfl⟩ := h
         rfl)
      | (have key := ih _ s1 exit (by exact hnext) (by exact hfinal1) h
         exact key)

end Google

namespace Google

/-! ## The claims on `_process_response` -/

/-- C12, refuted as stated.  The sample response is well-formed JSON of an unexpected
shape: an entry `a` in `files`, then a member whose value is an object.  The scan stops
at the nested object; `_process_response` reports no token but returns the item `a`, and
`cloud_storage_google_list_files` links it: the children of the folder, empty before,
are `a` afterwards. -/
theorem process_response_nested_object_keeps_items :
    _process_response nested_object_listing 100 ⟨200, nested_object_text⟩ none
        = some (sample_file "a" "a.srm" NULL, none) ∧
      cloud_storage_google_list_files nested_object_listing 100 1 (sample_folder NULL)
        = some (sample_folder (sample_file "a" "a.srm" NULL)) ∧
      cloud_storage_google_list_files nested_object_listing 100 1 (sample_folder NULL)
        ≠ some (sample_folder NULL) := by
  have hscan : _process_response nested_object_listing 100 ⟨200, nested_object_text⟩ none
      = some (sample_file "a" "a.srm" NULL, none) := by decide
  have hlist : cloud_storage_google_list_files nested_object_listing 100 1 (sample_folder NULL)
      = some (sample_folder (sample_file "a" "a.srm" NULL)) := by
    rw [list_files_first_page nested_object_listing 100 0 (sample_folder NULL)
      ⟨200, nested_object_text⟩ (by decide) (by decide) (by decide), hscan]
    decide
  refine ⟨hscan, hlist, ?_⟩
  rw [hlist]
  decide

/-- A listing response with status 200 on which the scan of `_process_response` ends at
`cleanup` with the locals `s1`: no token is reported (`*next_page_token` keeps its value) and the items returned
are those linked before the scan stopped; `cloud_storage_google_list_files` returns with
exactly these appended to the children of the folder.  When the reader delivered no
`RJSON_ARRAY` before the scan stopped, there are no such items and the folder is left
exactly as it was. -/
theorem process_response_cleanup_keeps_linked_items (ext : externals)
    (fuel iterations : Nat) (folder : cloud_storage_item_t) (http_response : http_response_t)
    (s1 : process_state)
    (hfolder : folder.get_item_type = some cloud_storage_item_type_t.CLOUD_STORAGE_FOLDER)
    (hexec : ext.google_rest_execute_request
      (rest_request_new (_create_http_request folder none)) = some http_response)
    (hstatus : net_http_response_get_status http_response = 200)
    (hscan : response_loop ext fuel (scan_start ext http_response)
      = some (process_exit.cleanup, s1)) :
    (∀ next_page_token : Option String,
        _process_response ext fuel http_response next_page_token
          = some (s1.first_file, next_page_token)) ∧
      (∃ folder1,
        cloud_storage_google_list_files ext fuel (iterations + 1) folder = some folder1 ∧
        folder1.folder_children.siblings
          = folder.folder_children.siblings ++ s1.first_file.siblings) ∧
      ((∀ tok ∈ (scan_start ext http_response).json.pending.take fuel,
            tok.type ≠ rjson_type.RJSON_ARRAY) →
          (scan_start ext http_response).json.final ≠ rjson_type.RJSON_ARRAY →
          s1.first_file = NULL ∧
          cloud_storage_google_list_files ext fuel (iterations + 1) folder = some folder) := by
  have hne : folder ≠ NULL := by
    intro h
    subst h
    simp [get_item_type] at hfolder
  have hreturn : ∀ next_page_token : Option String,
      _process_response ext fuel http_response next_page_token
        = some (s1.first_file, next_page_token) := by
    intro next_page_token
    have hscan1 := hscan
    unfold scan_start at hscan1
    unfold _process_response
    simp only []
    rw [hscan1]
  have hlist := list_files_first_page ext fuel iterations folder http_response hfolder hexec
    hstatus
  rw [hreturn none] at hlist
  refine ⟨hreturn, ⟨_, hlist, (link_new_items_spec folder s1.first_file hne).1⟩, ?_⟩
  intro hpending hfinal
  have hnull : s1.first_file = NULL :=
    response_loop_without_array ext fuel (scan_start ext http_response) s1
      process_exit.cleanup hpending hfinal hscan
  refine ⟨hnull, ?_⟩
  rw [hlist, hnull]
  simp [link_new_items]

theorem process_response_cleanup_keeps_linked_items_witness :
    (∀ next_page_token : Option String,
        _process_response malformed_listing 100 ⟨200, "<html>"⟩ next_page_token
          = some (malformed_scan_end.first_file, next_page_token)) ∧
      (∃ folder1,
        cloud_storage_google_list_files malformed_listing 100 1
            (sample_folder (sample_file "z" "z.srm" NULL)) = some folder1 ∧
        folder1.folder_children.siblings
          = (sample_folder (sample_file "z" "z.srm" NULL)).folder_children.siblings
            ++ malformed_scan_end.first_file.siblings) ∧
      ((∀ tok ∈ (scan_start malformed_listing ⟨200, "<html>"⟩).json.pending.take 100,
            tok.type ≠ rjson_type.RJSON_ARRAY) →
          (scan_start malformed_listing ⟨200, "<html>"⟩).json.final ≠ rjson_type.RJSON_ARRAY →
          malformed_scan_end.first_file = NULL ∧
          cloud_storage_google_list_files malformed_listing 100 1
              (sample_folder (sample_file "z" "z.srm" NULL))
            = some (sample_folder (sample_file "z" "z.srm" NULL))) :=
  process_response_cleanup_keeps_linked_items malformed_listing 100 0
    (sample_folder (sample_file "z" "z.srm" NULL)) ⟨200, "<html>"⟩
    malformed_scan_end (by decide) (by decide) (by decide) (by decide)

end Google

namespace Google

/-- The sample parser reads each of the three entries of the sample listing as
`sample_item_of` says. -/
theorem sample_parser_reads_mixed :
    ∀ entry ∈ listing_entries mixed_members,
      parser_reads mixed_listing sample_item_of entry := by
  intro entry hmem json rest hpending
  simp only [mixed_members, listing_entries, List.append_nil, List.mem_cons,
    List.mem_singleton, List.not_mem_nil, or_false] at hmem
  rcases hmem with rfl | rfl | rfl <;>
    simp [mixed_listing, parse_file_from_json, hpending, sample_item_of, read_file_fields,
      entry_body, entry_body_untyped, file_fields.set]

/-- The sample listing, evaluated: the items `a` and `b` in this order (the entry `x`,
which has no `mimeType`, is skipped) and the token `T1`. -/
theorem mixed_listing_result :
    _process_response mixed_listing 100 ⟨200, "mixed"⟩ none
        = some (sample_file "a" "a.srm" (sample_file "b" "b.srm" NULL), some "T1") ∧
      ([entry_body "a" "a.srm" "text/plain", entry_body_untyped "x" "x.srm",
          entry_body "b" "b.srm" "text/plain"].map sample_item_of).filter (fun x => x ≠ NULL)
        = [sample_file "a" "a.srm" NULL, sample_file "b" "b.srm" NULL] := by
  refine ⟨by decide, by decide⟩

/-- C16, refuted as stated.  The sample response is a well-formed top-level object without
a member `nextPageToken`; its member `a` is an array of the two strings `nextPageToken` and
`xyz`.  `_process_response` reports the token `xyz`. -/
theorem process_response_token_from_array_element :
    _process_response array_member_listing 100 ⟨200, array_member_text⟩ none
      = some (NULL, some "xyz") := by
  decide

/-- C16, amended.  For a well-formed listing response whose top-level object has only
string, number or literal members and `files` arrays of entries (no other array, no
object member), with a per-item parser that reads each entry, and enough fuel for the
tokens of the response: `_process_response` returns, and it reports a token exactly when
the object has a member `nextPageToken` with a string value; the reported token is the
value of such a member. -/
theorem process_response_token_iff_member (ext : externals)
    (item_of : List rjson_token → cloud_storage_item_t) (fuel : Nat)
    (http_response : http_response_t) (members : List listing_member)
    (hreader : (ext.rjson_open_buffer (net_http_response_get_data http_response false)).pending
      = listing_tokens members)
    (hparser : ∀ entry ∈ listing_entries members, parser_reads ext item_of entry)
    (hfuel : (listing_tokens members).length < fuel) :
    ∃ items token,
      _process_response ext fuel http_response none = some (items, token) ∧
      ((∃ tok, token = some tok) ↔
        ∃ value, listing_member.string "nextPageToken" value ∈ members) ∧
      (∀ tok, token = some tok → listing_member.string "nextPageToken" tok ∈ members) := by
  obtain ⟨items, hrun, _⟩ := process_response_listing ext item_of fuel http_response none
    members hreader hparser hfuel
  have htoken : (match listing_token members none with
      | some tok => some tok
      | none => (none : Option String)) = listing_token members none := by
    cases listing_token members none <;> rfl
  rw [htoken] at hrun
  have hfrom : ∀ tok, listing_token members none = some tok →
      listing_member.string "nextPageToken" tok ∈ members := by
    intro tok h
    rcases listing_token_some members none tok h with hmem | hacc
    · exact hmem
    · simp at hacc
  refine ⟨items, listing_token members none, hrun, ⟨?_, ?_⟩, hfrom⟩
  · rintro ⟨tok, h⟩
    exact ⟨tok, hfrom tok h⟩
  · intro h
    have hsome := listing_token_is_some members none (Or.inr h)
    exact Option.isSome_iff_exists.mp hsome

theorem process_response_token_iff_member_witness :
    ∃ items token,
      _process_response mixed_listing 100 ⟨200, "mixed"⟩ none = some (items, token) ∧
      ((∃ tok, token = some tok) ↔
        ∃ value, listing_member.string "nextPageToken" value ∈ mixed_members) ∧
      (∀ tok, token = some tok → listing_member.string "nextPageToken" tok ∈ mixed_members) :=
  process_response_token_iff_member mixed_listing sample_item_of 100 ⟨200, "mixed"⟩
    mixed_members (by decide) (fun entry hmem => sample_parser_reads_mixed entry hmem)
    (by decide)

end Google

namespace Google

/-! ## Scans that stop after some members -/

theorem response_loop_error (ext : externals) (fuel : Nat) (s : process_state)
    (tok : rjson_token) (rest : List rjson_token)
    (htype : tok.type = rjson_type.RJSON_ERROR)
    (hpending : s.json.pending = tok :: rest) :
    response_loop ext (fuel + 1) s =
      some (process_exit.cleanup,
        { s with json := { s.json with pending := rest, current := tok } }) := by
  rw [response_loop, rjson_next_cons s.json _ rest hpending, htype]

theorem response_loop_nested_object (ext : externals) (fuel : Nat) (s : process_state)
    (tok : rjson_token) (rest : List rjson_token)
    (htype : tok.type = rjson_type.RJSON_OBJECT) (hobject : s.in_object = true)
    (hpending : s.json.pending = tok :: rest) :
    response_loop ext (fuel + 1) s =
      some (process_exit.cleanup,
        { s with json := { s.json with pending := rest, current := tok } }) := by
  rw [response_loop, rjson_next_cons s.json _ rest hpending, htype]
  simp [hobject]

/-- The main loop over the members of the top-level object, whatever follows them: with
enough fuel for the tokens at hand the loop gets behind the members, with fuel left for
what follows; the accepted entries of the `files` members have then been appended to the
chain in order, when every parsed entry is a single node and `current_file` was the last
node. -/
theorem response_loop_members_prefix (ext : externals)
    (item_of : List rjson_token → cloud_storage_item_t) (tail : List rjson_token)
    (members : List listing_member) :
    ∀ (count fuel : Nat) (s : process_state),
      count % 2 = 0 → s.in_object = true →
      (∀ entry ∈ listing_entries members, parser_reads ext item_of entry) →
      s.json.pending = members_tokens count members ++ tail →
      s.json.pending.length < fuel →
      ∃ s1 fuel1, response_loop ext fuel s = response_loop ext fuel1 s1 ∧
        s1.json.pending = tail ∧ tail.length < fuel1 ∧ s1.in_object = true ∧
        ((∀ entry ∈ listing_entries members, (item_of entry).unlinked = item_of entry) →
          s.current_file = s.first_file.scan_last →
          s1.first_file.siblings
            = s.first_file.siblings
              ++ ((listing_entries members).map item_of).filter (fun x => x ≠ NULL)) := by
  induction members with
  | nil =>
    intro count fuel s _ hobject _ hpending hfuel
    simp only [members_tokens, List.nil_append] at hpending
    refine ⟨s, fuel, rfl, hpending, by rw [← hpending]; exact hfuel, hobject, ?_⟩
    intro _ _
    simp [listing_entries]
  | cons member members ih =>
    intro count fuel s hcount hobject hparser hpending hfuel
    have hodd : (count + 1) % 2 = 1 := by omega
    have heven : (count + 2) % 2 = 0 := by omega
    cases member with
    | string key value =>
      simp only [members_tokens, List.cons_append] at hpending
      have hlen := congrArg List.length hpending
      simp only [List.length_cons] at hlen
      obtain ⟨f, rfl⟩ : ∃ f, fuel = f + 2 := ⟨fuel - 2, by omega⟩
      rw [response_loop_key ext (f + 1) s key (count + 1) _ hobject hpending hodd]
      rw [response_loop_string_value ext f _ value (count + 2)
        (members_tokens (count + 2) members ++ tail) (by exact hobject) rfl heven]
      obtain ⟨s1, fuel1, hrun, hp1, hlen1, ho1, hchain⟩ := ih (count + 2) f
        { json :=
            { pending := members_tokens (count + 2) members ++ tail,
              current := ⟨rjson_type.RJSON_STRING, value, count + 2⟩,
              final := s.json.final },
          in_object := s.in_object, key_name := some key,
          received_next_page_token :=
            if (some key : Option String) = some "nextPageToken" then some value
            else s.received_next_page_token,
          first_file := s.first_file, current_file := s.current_file }
        heven hobject
        (fun e he => hparser e (by simpa [listing_entries] using he)) rfl
        (by
          show (members_tokens (count + 2) members ++ tail).length < f
          omega)
      refine ⟨s1, fuel1, hrun, hp1, hlen1, ho1, ?_⟩
      intro hsingle hlast
      simpa [listing_entries] using
        hchain (fun e he => hsingle e (by simpa [listing_entries] using he)) hlast
    | plain key type text =>
      simp only [members_tokens, List.cons_append] at hpending
      have hlen := congrArg List.length hpending
      simp only [List.length_cons] at hlen
      obtain ⟨f, rfl⟩ : ∃ f, fuel = f + 2 := ⟨fuel - 2, by omega⟩
      rw [response_loop_key ext (f + 1) s key (count + 1) _ hobject hpending hodd]
      rw [response_loop_plain_value ext f _ type text (count + 2)
        (members_tokens (count + 2) members ++ tail) rfl]
      obtain ⟨s1, fuel1, hrun, hp1, hlen1, ho1, hchain⟩ := ih (count + 2) f
        { json :=
            { pending := members_tokens (count + 2) members ++ tail,
              current := ⟨type.to_rjson_type, text, count + 2⟩,
              final := s.json.final },
          in_object := s.in_object, key_name := some key,
          received_next_page_token := s.received_next_page_token,
          first_file := s.first_file, current_file := s.current_file }
        heven hobject
        (fun e he => hparser e (by simpa [listing_entries] using he)) rfl
        (by
          show (members_tokens (count + 2) members ++ tail).length < f
          omega)
      refine ⟨s1, fuel1, hrun, hp1, hlen1, ho1, ?_⟩
      intro hsingle hlast
      simpa [listing_entries] using
        hchain (fun e he => hsingle e (by simpa [listing_entries] using he)) hlast
    | files entries =>
      simp only [members_tokens, List.cons_append, List.append_assoc] at hpending
      have hlen := congrArg List.length hpending
      simp only [List.length_cons, List.length_append] at hlen
      obtain ⟨f, rfl⟩ : ∃ f, fuel = f + 2 := ⟨fuel - 2, by omega⟩
      rw [response_loop_key ext (f + 1) s "files" (count + 1) _ hobject hpending hodd]
      rw [response_loop_files_array ext f _ 0
        (entries_tokens entries
          ++ ⟨rjson_type.RJSON_ARRAY_END, "", count + 2⟩
            :: (members_tokens (count + 2) members ++ tail))
        (by exact hobject) rfl rfl]
      obtain ⟨s2, hfiles, hp2, ho2, _, _, hchain2⟩ :=
        files_loop_entries ext item_of ⟨rjson_type.RJSON_ARRAY_END, "", count + 2⟩
          (members_tokens (count + 2) members ++ tail) rfl entries f
          { s with
            json := { s.json with
              pending := entries_tokens entries
                ++ ⟨rjson_type.RJSON_ARRAY_END, "", count + 2⟩
                  :: (members_tokens (count + 2) members ++ tail),
              current := ⟨rjson_type.RJSON_ARRAY, "", 0⟩ },
            key_name := some "files" }
          (fun e he => hparser e (by simp [listing_entries, he]))
          rfl
          (by simp only [List.length_append, List.length_cons]; omega)
      rw [hfiles, Option.bind]
      obtain ⟨s1, fuel1, hrun, hp1, hlen1, ho1, hchain⟩ := ih (count + 2) f s2 heven
        (by rw [ho2]; exact hobject)
        (fun e he => hparser e (by simp [listing_entries, he])) hp2
        (by rw [hp2]; simp only [List.length_append, List.length_cons] at hlen ⊢; omega)
      refine ⟨s1, fuel1, hrun, hp1, hlen1, ho1, ?_⟩
      intro hsingle hlast
      obtain ⟨hc2, hs2⟩ := hchain2 (fun e he => hsingle e (by simp [listing_entries, he])) hlast
      rw [hchain (fun e he => hsingle e (by simp [listing_entries, he])) hc2, hs2]
      simp [listing_entries]

end Google

namespace Google

theorem siblings_eq_nil (head : cloud_storage_item_t) (h : head.siblings = []) :
    head = NULL := by
  cases head with
  | NULL => rfl
  | item i n t ty f c nx => simp [siblings] at h

/-- The scan of a response whose top-level object is stopped, after some members, by a
reader error or by an object that is the value of a member: it is left through `cleanup`,
and the chain linked by then is the accepted entries of the `files` members delivered
before the stop, in order. -/
theorem scan_stopped_listing (ext : externals)
    (item_of : List rjson_token → cloud_storage_item_t) (fuel : Nat)
    (http_response : http_response_t) (members : List listing_member) (key : Option String)
    (stop : rjson_token) (rest : List rjson_token)
    (hstop : stop.type = rjson_type.RJSON_ERROR ∨ stop.type = rjson_type.RJSON_OBJECT)
    (hreader : (scan_start ext http_response).json.pending
      = stopped_listing_tokens members key stop rest)
    (hparser : ∀ entry ∈ listing_entries members, parser_reads ext item_of entry)
    (hsingle : ∀ entry ∈ listing_entries members, (item_of entry).unlinked = item_of entry)
    (hfuel : (stopped_listing_tokens members key stop rest).length < fuel) :
    ∃ s1, response_loop ext fuel (scan_start ext http_response)
        = some (process_exit.cleanup, s1) ∧
      s1.first_file.siblings
        = ((listing_entries members).map item_of).filter (fun x => x ≠ NULL) := by
  obtain ⟨f, rfl⟩ : ∃ f, fuel = f + 1 := ⟨fuel - 1, by omega⟩
  unfold stopped_listing_tokens at hreader hfuel
  simp only [List.length_cons] at hfuel
  rw [response_loop_object_open ext f (scan_start ext http_response) 0 _ rfl hreader]
  obtain ⟨s1, fuel1, hrun, hp1, hlen1, ho1, hchain⟩ := response_loop_members_prefix ext item_of
    (key_tokens (2 * members.length) key ++ stop :: rest)
    members 0 f
    { json :=
        { pending := members_tokens 0 members
            ++ (key_tokens (2 * members.length) key ++ stop :: rest),
          current := ⟨rjson_type.RJSON_OBJECT, "", 0⟩,
          final := (scan_start ext http_response).json.final },
      in_object := true, key_name := none, received_next_page_token := none,
      first_file := NULL, current_file := none }
    rfl rfl hparser rfl (by simpa using hfuel)
  have hitems := hchain hsingle rfl
  simp only [siblings, List.nil_append] at hitems
  have hrun1 : response_loop ext f
      { scan_start ext http_response with
        json := { (scan_start ext http_response).json with
          pending := members_tokens 0 members
            ++ (key_tokens (2 * members.length) key ++ stop :: rest),
          current := ⟨rjson_type.RJSON_OBJECT, "", 0⟩ },
        in_object := true } = response_loop ext fuel1 s1 := hrun
  rw [hrun1]
  have hstopped : ∀ (g : Nat) (s2 : process_state), s2.in_object = true →
      s2.json.pending = stop :: rest →
      ∃ s3, response_loop ext (g + 1) s2 = some (process_exit.cleanup, s3) ∧
        s3.first_file = s2.first_file := by
    intro g s2 hobject hpending
    rcases hstop with h | h
    · exact ⟨_, response_loop_error ext g s2 stop rest h hpending, rfl⟩
    · exact ⟨_, response_loop_nested_object ext g s2 stop rest h hobject hpending, rfl⟩
  cases key with
  | none =>
    simp only [key_tokens, List.nil_append] at hp1 hlen1
    simp only [List.length_cons] at hlen1
    obtain ⟨g, rfl⟩ : ∃ g, fuel1 = g + 1 := ⟨fuel1 - 1, by omega⟩
    obtain ⟨s3, hend, hfirst⟩ := hstopped g s1 ho1 hp1
    exact ⟨s3, hend, by rw [hfirst]; exact hitems⟩
  | some name =>
    simp only [key_tokens, List.singleton_append] at hp1 hlen1
    simp only [List.length_cons] at hlen1
    obtain ⟨g, rfl⟩ : ∃ g, fuel1 = g + 2 := ⟨fuel1 - 2, by omega⟩
    rw [response_loop_key ext (g + 1) s1 name (2 * members.length + 1) _ ho1 hp1 (by omega)]
    obtain ⟨s3, hend, hfirst⟩ := hstopped g
      { s1 with
        json := { s1.json with
          pending := stop :: rest,
          current := ⟨rjson_type.RJSON_STRING, name, 2 * members.length + 1⟩ },
        key_name := some name } ho1 rfl
    exact ⟨s3, hend, by rw [hfirst]; exact hitems⟩

end Google

namespace Google

/-- The sample parser reads the entry `a` of the response with the nested object as
`sample_item_of` says. -/
theorem sample_parser_reads_nested :
    ∀ entry ∈ listing_entries [listing_member.files [entry_body "a" "a.srm" "text/plain"]],
      parser_reads nested_object_listing sample_item_of entry := by
  intro entry hmem json rest hpending
  simp only [listing_entries, List.append_nil, List.mem_singleton] at hmem
  subst hmem
  simp [nested_object_listing, parse_file_from_json, hpending, sample_item_of,
    read_file_fields, entry_body, file_fields.set]

/-- C12, amended.  For a listing response with status 200 whose body is no JSON at all
(the reader reports an error at once), or whose top-level object is stopped, after some
string, number, literal or `files` members, by a reader error or by a member whose value
is an object: with a per-item parser that reads each entry as a single item or rejects it
with `NULL`, and enough fuel for the tokens, `_process_response` returns, reports no token
(`*next_page_token` keeps its value) and returns exactly the accepted entries of the
`files` arrays delivered before the stop, in order; `cloud_storage_google_list_files`
returns with exactly these appended to the children of the folder, and leaves the folder
as it was when there are none. -/
theorem process_response_stopped_scan_keeps_items (ext : externals)
    (item_of : List rjson_token → cloud_storage_item_t) (fuel iterations : Nat)
    (folder : cloud_storage_item_t) (http_response : http_response_t)
    (members : List listing_member) (key : Option String) (stop : rjson_token)
    (rest : List rjson_token)
    (hfolder : folder.get_item_type = some cloud_storage_item_type_t.CLOUD_STORAGE_FOLDER)
    (hexec : ext.google_rest_execute_request
      (rest_request_new (_create_http_request folder none)) = some http_response)
    (hstatus : net_http_response_get_status http_response = 200)
    (hreader :
      ((scan_start ext http_response).json.pending = stop :: rest ∧
        stop.type = rjson_type.RJSON_ERROR ∧ members = []) ∨
      ((scan_start ext http_response).json.pending
          = stopped_listing_tokens members key stop rest ∧
        (stop.type = rjson_type.RJSON_ERROR ∨ stop.type = rjson_type.RJSON_OBJECT)))
    (hparser : ∀ entry ∈ listing_entries members, parser_reads ext item_of entry)
    (hsingle : ∀ entry ∈ listing_entries members, (item_of entry).unlinked = item_of entry)
    (hfuel : (scan_start ext http_response).json.pending.length < fuel) :
    ∃ items folder1,
      (∀ next_page_token : Option String,
        _process_response ext fuel http_response next_page_token
          = some (items, next_page_token)) ∧
      items.siblings = ((listing_entries members).map item_of).filter (fun x => x ≠ NULL) ∧
      cloud_storage_google_list_files ext fuel (iterations + 1) folder = some folder1 ∧
      folder1.folder_children.siblings
        = folder.folder_children.siblings
          ++ ((listing_entries members).map item_of).filter (fun x => x ≠ NULL) ∧
      (((listing_entries members).map item_of).filter (fun x => x ≠ NULL) = [] →
        folder1 = folder) := by
  have hne : folder ≠ NULL := by
    intro h
    subst h
    simp [get_item_type] at hfolder
  have hscan : ∃ s1, response_loop ext fuel (scan_start ext http_response)
        = some (process_exit.cleanup, s1) ∧
      s1.first_file.siblings
        = ((listing_entries members).map item_of).filter (fun x => x ≠ NULL) := by
    rcases hreader with ⟨hpending, htype, hmembers⟩ | ⟨hpending, hstop⟩
    · subst hmembers
      obtain ⟨f, rfl⟩ : ∃ f, fuel = f + 1 := ⟨fuel - 1, by omega⟩
      exact ⟨_, response_loop_error ext f (scan_start ext http_response) stop rest htype
        hpending, by simp [scan_start, siblings, listing_entries]⟩
    · exact scan_stopped_listing ext item_of fuel http_response members key stop rest hstop
        hpending hparser hsingle (by rw [← hpending]; exact hfuel)
  obtain ⟨s1, hcleanup, hitems⟩ := hscan
  obtain ⟨hreturn, _, _⟩ := process_response_cleanup_keeps_linked_items ext fuel iterations
    folder http_response s1 hfolder hexec hstatus hcleanup
  have hlist := list_files_first_page ext fuel iterations folder http_response hfolder hexec
    hstatus
  rw [hreturn none] at hlist
  refine ⟨s1.first_file, (link_new_items folder folder.folder_children.scan_last
    s1.first_file).1, hreturn, hitems, hlist, ?_, ?_⟩
  · rw [(link_new_items_spec folder s1.first_file hne).1, hitems]
  · intro hnone
    have hnull : s1.first_file = NULL := siblings_eq_nil _ (by rw [hitems]; exact hnone)
    rw [hnull]
    simp [link_new_items]

theorem process_response_stopped_scan_keeps_items_witness :
    ∃ items folder1,
      (∀ next_page_token : Option String,
        _process_response nested_object_listing 100 ⟨200, nested_object_text⟩ next_page_token
          = some (items, next_page_token)) ∧
      items.siblings
        = ((listing_entries
            [listing_member.files [entry_body "a" "a.srm" "text/plain"]]).map
              sample_item_of).filter (fun x => x ≠ NULL) ∧
      cloud_storage_google_list_files nested_object_listing 100 1
          (sample_folder (sample_file "z" "z.srm" NULL)) = some folder1 ∧
      folder1.folder_children.siblings
        = (sample_folder (sample_file "z" "z.srm" NULL)).folder_children.siblings
          ++ ((listing_entries
              [listing_member.files [entry_body "a" "a.srm" "text/plain"]]).map
                sample_item_of).filter (fun x => x ≠ NULL) ∧
      (((listing_entries
          [listing_member.files [entry_body "a" "a.srm" "text/plain"]]).map
            sample_item_of).filter (fun x => x ≠ NULL) = [] →
        folder1 = sample_folder (sample_file "z" "z.srm" NULL)) :=
  process_response_stopped_scan_keeps_items nested_object_listing sample_item_of 100 0
    (sample_folder (sample_file "z" "z.srm" NULL)) ⟨200, nested_object_text⟩
    [listing_member.files [entry_body "a" "a.srm" "text/plain"]] (some "extra")
    ⟨rjson_type.RJSON_OBJECT, "", 0⟩
    [⟨rjson_type.RJSON_OBJECT_END, "", 4⟩, ⟨rjson_type.RJSON_OBJECT_END, "", 4⟩]
    (by decide) (by decide) (by decide) (Or.inr ⟨by decide, Or.inr rfl⟩)
    sample_parser_reads_nested (by decide) (by decide)

/-- The sample response with the nested object, evaluated: the accepted entries before the
stop are the one item `a`. -/
theorem nested_object_listing_accepted :
    ((listing_entries [listing_member.files [entry_body "a" "a.srm" "text/plain"]]).map
        sample_item_of).filter (fun x => x ≠ NULL) = [sample_file "a" "a.srm" NULL] := by
  decide

end Google

end CloudStorage
